import Mathlib

/-!
Eco-Power dashboard: metrics aggregation, chart window, alert list and pollers

A shallow embedding of the frontend of the repository:

* `calculateMetrics` (`pages/Dashboard.jsx`, lines 94-111),
* `chartData` (`pages/Dashboard.jsx`, lines 116-122),
* the alert panel of the render function (`pages/Dashboard.jsx`, lines 250-278),
* `fetchDashboardData` as one call (`pages/Dashboard.jsx`, lines 35-66),
* the mounted `Dashboard` component over time: the effect of lines 14-21, the
  early return of line 130, and every call of `fetchDashboardData` and of
  `generateReport` resumed `await` by `await`,
* `fetchNotifications` (`App.jsx`, lines 19-30),
* `generateReport` (`pages/Reports.jsx`, lines 9-55, and `pages/Dashboard.jsx`,
  lines 68-91).

Numbers are exact rationals, and `avgPower` is modelled a second time in IEEE
double arithmetic, where the rounding decides an inequality.  A property that a
JavaScript object does not have (it reads as `undefined`) is `none`.
-/

namespace EcoPower

/-! ## Data model -/

/-- One telemetry sample, with the fields the dashboard reads.  The
timestamp is the instant the backend reports, in milliseconds. -/
structure TelemetryReading where
  timestamp : Int
  pv_power_kw : ℚ
  module_temp_c : ℚ
  irradiation_wm2 : ℚ
  inverter_efficiency : ℚ
  wind_speed_ms : ℚ
  humidity_percent : ℚ
  dust_level : ℚ
  deriving DecidableEq

/-- One prediction record, with the fields the dashboard reads. -/
structure Prediction where
  predicted_power_kw : ℚ
  efficiency_score : ℚ
  maintenance_score : ℚ
  deriving DecidableEq

/-- A JavaScript number that is either finite or `-Infinity`, the value
`Math.max` starts from. -/
inductive JsNum where
  | negInfinity : JsNum
  | fin (q : ℚ) : JsNum
  deriving DecidableEq

/-- The object returned by `calculateMetrics`.  A field is `none` when the
object has no such property. -/
structure Metrics where
  currentPower : Option ℚ
  avgPower : Option ℚ
  maxPower : Option JsNum
  efficiency : Option ℚ
  temperature : Option ℚ
  irradiation : Option ℚ
  dustLevel : Option ℚ
  deriving DecidableEq

/-- The object literal `{}`: no property at all. -/
def emptyObject : Metrics :=
  { currentPower := none, avgPower := none, maxPower := none, efficiency := none,
    temperature := none, irradiation := none, dustLevel := none }

/-! ## calculateMetrics -/

/-- The expression `v || 0` for a numeric or undefined `v`: `undefined` and
the number `0` are falsy and give `0`, every other number gives itself. -/
def orZero (v : Option ℚ) : ℚ :=
  match v with
  | none => 0
  | some x => if x = 0 then 0 else x

/-- One step of `Math.max`: the running highest value is replaced when the
next argument is greater. -/
def maxStep (highest : JsNum) (x : ℚ) : JsNum :=
  match highest with
  | JsNum.negInfinity => JsNum.fin x
  | JsNum.fin h => if h < x then JsNum.fin x else JsNum.fin h

/-- The call `Math.max(...xs)`: `-Infinity` on no argument. -/
def mathMax (xs : List ℚ) : JsNum :=
  xs.foldl maxStep JsNum.negInfinity

/-- The reduction `telemetryData.reduce((sum, d) => sum + d.pv_power_kw, 0)`. -/
def sumPower (telemetryData : List TelemetryReading) : ℚ :=
  telemetryData.foldl (fun sum d => sum + d.pv_power_kw) 0

/-- The reduction `predictions.reduce((sum, p) => sum + p.efficiency_score, 0)`. -/
def sumEfficiency (predictions : List Prediction) : ℚ :=
  predictions.foldl (fun sum p => sum + p.efficiency_score) 0

/-- The conditional that computes `avgEfficiency` (line 100). -/
def avgEfficiency (predictions : List Prediction) : ℚ :=
  if predictions.length ≠ 0 then sumEfficiency predictions / predictions.length else 0

/-- The function `calculateMetrics` (lines 94-111), with the component state
it reads passed as arguments. -/
def calculateMetrics (telemetryData : List TelemetryReading)
    (predictions : List Prediction) : Metrics :=
  if telemetryData.length = 0 then emptyObject
  else
    let latest := telemetryData[0]?
    let avgPower := sumPower telemetryData / telemetryData.length
    let maxPower := mathMax (telemetryData.map fun d => d.pv_power_kw)
    let avgEff := avgEfficiency predictions
    { currentPower := some (orZero (latest.map fun d => d.pv_power_kw))
      avgPower := some avgPower
      maxPower := some maxPower
      efficiency := some (avgEff * 100)
      temperature := some (orZero (latest.map fun d => d.module_temp_c))
      irradiation := some (orZero (latest.map fun d => d.irradiation_wm2))
      dustLevel := some (orZero (latest.map fun d => d.dust_level) * 100) }

/-! ## avgPower in double arithmetic

JavaScript numbers are IEEE 754 doubles: every addition and division is
rounded to the nearest double, ties to the even one.  `maxPower` and the fields
of the first reading involve no arithmetic; `avgPower` does, so it is modelled
a second time with the rounding. -/

/-- A double that is not NaN; the two zeros are one value. -/
inductive JsDouble where
  | negInfinity : JsDouble
  | finite (q : ℚ) : JsDouble
  | posInfinity : JsDouble
  deriving DecidableEq

/-- The nearest integer, a tie going to the even one. -/
def roundHalfEven (x : ℚ) : ℤ :=
  let f := ⌊x⌋
  if x - f < 1 / 2 then f
  else if 1 / 2 < x - f then f + 1
  else if f % 2 = 0 then f else f + 1

/-- The largest finite double, `(2^53 - 1) * 2^971`. -/
def maxDouble : ℚ := (2 ^ 53 - 1) * 2 ^ 971

/-- The spacing of the doubles around `x ≠ 0`: 53 significant bits, and
`2^-1074` in the subnormal range. -/
def quantum (x : ℚ) : ℚ := 2 ^ max (Int.log 2 |x| - 52) (-1074)

/-- The double an exact result is rounded to: nearest, ties to even, and an
infinity when the rounded value is beyond the largest finite double. -/
def roundDouble (x : ℚ) : JsDouble :=
  if x = 0 then JsDouble.finite 0
  else
    let r : ℚ := roundHalfEven (x / quantum x) * quantum x
    if maxDouble < r then JsDouble.posInfinity
    else if r < -maxDouble then JsDouble.negInfinity
    else JsDouble.finite r

/-- This rational is a double. -/
def isDouble (x : ℚ) : Bool :=
  roundDouble x == JsDouble.finite x

/-- The sum `sum + x` of a running sum and a finite double. -/
def addDouble (sum : JsDouble) (x : ℚ) : JsDouble :=
  match sum with
  | JsDouble.finite a => roundDouble (a + x)
  | JsDouble.posInfinity => JsDouble.posInfinity
  | JsDouble.negInfinity => JsDouble.negInfinity

/-- The quotient `sum / n` for a positive finite `n`. -/
def divDouble (sum : JsDouble) (n : ℚ) : JsDouble :=
  match sum with
  | JsDouble.finite a => roundDouble (a / n)
  | JsDouble.posInfinity => JsDouble.posInfinity
  | JsDouble.negInfinity => JsDouble.negInfinity

/-- The reduction `telemetryData.reduce((sum, d) => sum + d.pv_power_kw, 0)`
as the code runs it, every addition rounded. -/
def sumPowerDouble (telemetryData : List TelemetryReading) : JsDouble :=
  telemetryData.foldl (fun sum d => addDouble sum d.pv_power_kw) (JsDouble.finite 0)

/-- The value of `avgPower` (line 98) as the code runs it on a non-empty
sequence: the rounded sum divided by the length, rounded. -/
def avgPowerDouble (telemetryData : List TelemetryReading) : JsDouble :=
  divDouble (sumPowerDouble telemetryData) telemetryData.length

/-! ## chartData -/

/-- One point of the chart series. -/
structure ChartPoint where
  time : String
  power : ℚ
  irradiation : ℚ
  temperature : ℚ
  efficiency : ℚ
  deriving DecidableEq

/-- The projection applied by `map` in `chartData` (lines 116-122).  The
locale formatting `new Date(t).toLocaleTimeString()` belongs to the host and
is the parameter `toLocaleTimeString`. -/
def chartPoint (toLocaleTimeString : Int → String) (d : TelemetryReading) : ChartPoint :=
  { time := toLocaleTimeString d.timestamp
    power := d.pv_power_kw
    irradiation := d.irradiation_wm2 / 10
    temperature := d.module_temp_c
    efficiency := d.inverter_efficiency }

/-- The readings charted, in chart order: `telemetryData.slice(0, 20).reverse()`. -/
def chartWindow (telemetryData : List TelemetryReading) : List TelemetryReading :=
  (telemetryData.take 20).reverse

/-- The series `chartData` (lines 116-122). -/
def chartData (toLocaleTimeString : Int → String)
    (telemetryData : List TelemetryReading) : List ChartPoint :=
  (chartWindow telemetryData).map (chartPoint toLocaleTimeString)

/-! ## The alert panel -/

/-- One alert, with the fields the dashboard reads. -/
structure Alert where
  id : Int
  alert_type : String
  severity : String
  message : String
  timestamp : Int
  deriving DecidableEq

/-- The own properties of the object literal `alertColors` (lines 124-128). -/
def alertColors : List (String × String) :=
  [("HIGH", "text-red-600 bg-red-50 border-red-200"),
   ("MEDIUM", "text-yellow-600 bg-yellow-50 border-yellow-200"),
   ("LOW", "text-blue-600 bg-blue-50 border-blue-200")]

/-- The property names every object literal inherits from `Object.prototype`. -/
def objectPrototypeKeys : List String :=
  ["constructor", "__proto__", "hasOwnProperty", "isPrototypeOf", "propertyIsEnumerable",
   "toLocaleString", "toString", "valueOf", "__defineGetter__", "__defineSetter__",
   "__lookupGetter__", "__lookupSetter__"]

/-- What a property read `obj[key]` on an object literal of strings gives. -/
inductive PropertyValue where
  | text (s : String) : PropertyValue
  | inherited (key : String) : PropertyValue
  | undefined : PropertyValue
  deriving DecidableEq

/-- The property read `obj[key]`: an own property, else one inherited from
`Object.prototype`, else `undefined`. -/
def getProperty (obj : List (String × String)) (key : String) : PropertyValue :=
  match obj.lookup key with
  | some v => PropertyValue.text v
  | none => if key ∈ objectPrototypeKeys then PropertyValue.inherited key
            else PropertyValue.undefined

/-- The text a template literal substitutes for a value: a string is itself,
`undefined` is the word "undefined"; the text of an inherited built-in is
host-defined and is `none` here. -/
def templateText (v : PropertyValue) : Option String :=
  match v with
  | PropertyValue.text s => some s
  | PropertyValue.undefined => some "undefined"
  | PropertyValue.inherited _ => none

/-- The call `s.replace(a, b)` on characters: only the first occurrence of
`a` is replaced. -/
def replaceFirst (a b : Char) (cs : List Char) : List Char :=
  match cs with
  | [] => []
  | c :: rest => if c = a then b :: rest else c :: replaceFirst a b rest

/-- The element rendered for one alert (lines 261-274).  The class name is
the fixed text `classBase` followed by the substituted `severityClass`. -/
structure AlertView where
  key : Int
  classBase : String
  severityClass : PropertyValue
  title : String
  message : String
  badge : String
  time : String
  deriving DecidableEq

/-- The callback of `alerts.map` (lines 260-275).  The locale formatting
`new Date(t).toLocaleString()` belongs to the host and is the parameter
`toLocaleString`. -/
def alertView (toLocaleString : Int → String) (alert : Alert) : AlertView :=
  { key := alert.id
    classBase := "p-3 rounded-md border "
    severityClass := getProperty alertColors alert.severity
    title := String.mk (replaceFirst '_' ' ' alert.alert_type.data)
    message := alert.message
    badge := alert.severity
    time := toLocaleString alert.timestamp }

/-- The body of the alert panel: the placeholder paragraph or the mapped
alerts (lines 257-276). -/
inductive AlertsBody where
  | noActiveAlerts : AlertsBody
  | items (views : List AlertView) : AlertsBody
  deriving DecidableEq

/-- The alert panel (lines 251-278): the count shown in the heading and the
body. -/
structure AlertsPanel where
  count : Nat
  body : AlertsBody
  deriving DecidableEq

/-- The alert panel rendered from the `alerts` state (lines 251-278). -/
def alertsPanel (toLocaleString : Int → String) (alerts : List Alert) : AlertsPanel :=
  { count := alerts.length
    body := if alerts.length = 0 then AlertsBody.noActiveAlerts
            else AlertsBody.items (alerts.map (alertView toLocaleString)) }

/-- The alert elements a panel body shows; the placeholder shows none. -/
def AlertsBody.entries (b : AlertsBody) : List AlertView :=
  match b with
  | AlertsBody.noActiveAlerts => []
  | AlertsBody.items views => views

/-! ## Requests, responses and exceptions

The asynchronous functions of `Dashboard.jsx`, `App.jsx` and `Reports.jsx`
are embedded as state transformers.  What the environment decides (whether a
request is rejected, the status of a response, whether its body can be read) is
an argument.  The error value printed next to a `console.error` label is left
out. -/

/-- What `await response.json()` gives: the parsed value, or a throw when the
body cannot be read. -/
inductive Body (β : Type) where
  | readable (value : β) : Body β
  | unreadable : Body β
  deriving DecidableEq

/-- A response: `ok` is true exactly for a 2xx status. -/
structure Response (β : Type) where
  ok : Bool
  body : Body β
  deriving DecidableEq

/-- How `await fetch(url)` ends: the promise is rejected (the `await` throws)
or it resolves to a response. -/
inductive FetchOutcome (β : Type) where
  | rejected : FetchOutcome β
  | resolved (response : Response β) : FetchOutcome β
  deriving DecidableEq

/-- The end of a block: the state reached and whether the block threw. -/
structure Completion (σ : Type) where
  state : σ
  threw : Bool
  deriving DecidableEq

/-- The parsed body of the report endpoint. -/
structure ReportData where
  report : String
  deriving DecidableEq

/-- The values substituted into the document written to the report window:
by `Reports.jsx` (lines 18-47) or by `Dashboard.jsx` (lines 76-84). -/
inductive ReportDocument where
  | reportsPage (installation generated report : String) : ReportDocument
  | dashboardPage (report : String) : ReportDocument
  deriving DecidableEq

/-- What a component did to its environment, oldest first: the URLs
fetched, the `console.error` labels, the `alert` messages and the documents
written to a new window. -/
structure Host where
  requests : List String
  console : List String
  notices : List String
  documents : List ReportDocument
  deriving DecidableEq

/-- An environment in which nothing has happened yet. -/
def Host.empty : Host :=
  { requests := [], console := [], notices := [], documents := [] }

/-- The block `if (response.ok) { const v = await response.json(); set(v) }`:
a non-2xx response is skipped without reading its body, an unreadable body
throws before `set`. -/
def whenOk {β σ : Type} (response : Response β) (set : β → σ → σ) (s : σ) : Completion σ :=
  if response.ok then
    match response.body with
    | Body.readable value => { state := set value s, threw := false }
    | Body.unreadable => { state := s, threw := true }
  else { state := s, threw := false }

/-- The full class name of an alert element, the template literal of line
261, when the substituted text is known. -/
def AlertView.className (v : AlertView) : Option String :=
  (templateText v.severityClass).map fun t => v.classBase ++ t

/-! ## fetchDashboardData -/

/-- The state of the `Dashboard` component (lines 6-12, without the
installation list, which only `fetchInstallations` writes) and its
environment. -/
structure Dashboard where
  selectedInstallation : String
  telemetryData : List TelemetryReading
  predictions : List Prediction
  alerts : List Alert
  loading : Bool
  realTimeData : Option TelemetryReading
  host : Host
  deriving DecidableEq

/-- The initial state of the component (lines 7-12). -/
def Dashboard.initial : Dashboard :=
  { selectedInstallation := "INST_001", telemetryData := [], predictions := [], alerts := [],
    loading := true, realTimeData := none, host := Host.empty }

/-- How the three requests of one cycle end. -/
structure CycleOutcome where
  telemetry : FetchOutcome (List TelemetryReading)
  predictions : FetchOutcome (List Prediction)
  alerts : FetchOutcome (List Alert)
  deriving DecidableEq

/-- The part of `fetchDashboardData` before the `await` (lines 37-43):
`setLoading(true)` and the three requests for the selected installation. -/
def Dashboard.beginFetch (s : Dashboard) : Dashboard :=
  { s with
    loading := true
    host := { s.host with
      requests := s.host.requests ++
        ["/api/latest/" ++ s.selectedInstallation,
         "/api/predictions/" ++ s.selectedInstallation,
         "/api/alerts/" ++ s.selectedInstallation] } }

/-- The three `if (...Res.ok)` blocks (lines 45-59), run in order inside one
`try`: a throw skips the blocks after it. -/
def applyResponses (telemetryRes : Response (List TelemetryReading))
    (predictionsRes : Response (List Prediction)) (alertsRes : Response (List Alert))
    (s : Dashboard) : Completion Dashboard :=
  let c1 := whenOk telemetryRes
    (fun d st => { st with telemetryData := d, realTimeData := d[0]? }) s
  if c1.threw then c1
  else
    let c2 := whenOk predictionsRes (fun d st => { st with predictions := d }) c1.state
    if c2.threw then c2
    else whenOk alertsRes (fun d st => { st with alerts := d }) c2.state

/-- The `catch` and `finally` blocks (lines 61-65) after the `try` block
ended as `c`. -/
def Dashboard.afterTry (c : Completion Dashboard) : Dashboard :=
  let s1 :=
    if c.threw then
      { c.state with
        host := { c.state.host with
          console := c.state.host.console ++ ["Error fetching dashboard data:"] } }
    else c.state
  { s1 with loading := false }

/-- The part of `fetchDashboardData` after the `await` (lines 39-65), once
the three requests have ended as `o`: `Promise.all` throws when a request is
rejected. -/
def settleCycle (o : CycleOutcome) (s : Dashboard) : Dashboard :=
  Dashboard.afterTry
    (match o.telemetry, o.predictions, o.alerts with
     | FetchOutcome.resolved t, FetchOutcome.resolved p, FetchOutcome.resolved a =>
       applyResponses t p a s
     | _, _, _ => { state := s, threw := true })

/-- One whole call of `fetchDashboardData` (lines 35-66) whose requests end
as `o`, with nothing else happening in between. -/
def fetchDashboardData (o : CycleOutcome) (s : Dashboard) : Dashboard :=
  settleCycle o s.beginFetch

/-- Handling this response in an `if (...Res.ok)` block does not throw: it is
non-2xx, or its body can be read. -/
def Response.handled {β : Type} (r : Response β) : Bool :=
  match r.ok, r.body with
  | false, _ => true
  | true, Body.readable _ => true
  | true, Body.unreadable => false

/-! ## The dashboard over time

The mounted `Dashboard` component with every call of `fetchDashboardData` and
of `generateReport` that has not returned yet.  A call is suspended at an
`await` and resumes when the awaited request settles or the awaited body has
been read; between two resumptions anything else may happen.  All calls write
the same component state, the loading flag included. -/

/-- One installation of the registry, with the fields the selector shows
(lines 153-156). -/
structure Installation where
  id : String
  name : String
  capacity_kw : ℚ
  deriving DecidableEq

/-- The early return of line 130 is taken: only the spinner is rendered,
neither the selector nor the report button. -/
def Dashboard.spinner (s : Dashboard) : Bool :=
  s.loading && s.telemetryData.length == 0

/-- This request has been rejected. -/
def isRejected {β : Type} (o : Option (FetchOutcome β)) : Bool :=
  match o with
  | some FetchOutcome.rejected => true
  | _ => false

/-- The response this request has resolved to, if it has. -/
def response? {β : Type} (o : Option (FetchOutcome β)) : Option (Response β) :=
  match o with
  | some (FetchOutcome.resolved r) => some r
  | _ => none

/-- Where a call of `fetchDashboardData` is suspended: at the `await` on
`Promise.all` (line 39), at one of the three `await ...Res.json()` (lines 46,
52, 57) with the responses still to be handled, or nowhere because it has
returned. -/
inductive CyclePhase where
  | awaitingAll : CyclePhase
  | readingTelemetry (telemetryRes : Response (List TelemetryReading))
      (predictionsRes : Response (List Prediction)) (alertsRes : Response (List Alert)) :
      CyclePhase
  | readingPredictions (predictionsRes : Response (List Prediction))
      (alertsRes : Response (List Alert)) : CyclePhase
  | readingAlerts (alertsRes : Response (List Alert)) : CyclePhase
  | done : CyclePhase
  deriving DecidableEq

/-- One call of `fetchDashboardData`: the installation id its requests were
issued for, how each request has settled (`none` while it is pending) and where
the call is suspended. -/
structure Cycle where
  id : String
  telemetry : Option (FetchOutcome (List TelemetryReading))
  predictions : Option (FetchOutcome (List Prediction))
  alerts : Option (FetchOutcome (List Alert))
  phase : CyclePhase
  deriving DecidableEq

/-- Where a call of `generateReport` of `Dashboard.jsx` is suspended: at
`await fetch` (line 71), at `await response.json()` (line 73), or nowhere. -/
inductive ReportPhase where
  | awaitingFetch : ReportPhase
  | readingBody (response : Response ReportData) : ReportPhase
  | done : ReportPhase
  deriving DecidableEq

/-- A call that was started: of `fetchDashboardData` or of `generateReport`. -/
inductive Call where
  | cycle (c : Cycle) : Call
  | report (id : String) (phase : ReportPhase) : Call
  deriving DecidableEq

/-- A call of `fetchDashboardData` that has just reached its first `await`. -/
def Cycle.start (id : String) : Cycle :=
  { id := id, telemetry := none, predictions := none, alerts := none,
    phase := CyclePhase.awaitingAll }

/-- The third `if` block (lines 56-59) and what follows: suspend to read the
alerts body, or fall through to `finally`. -/
def proceedAlerts (alertsRes : Response (List Alert)) (s : Dashboard) :
    CyclePhase × Dashboard :=
  if alertsRes.ok then (CyclePhase.readingAlerts alertsRes, s)
  else (CyclePhase.done, Dashboard.afterTry { state := s, threw := false })

/-- The second `if` block (lines 51-54) and what follows. -/
def proceedPredictions (predictionsRes : Response (List Prediction))
    (alertsRes : Response (List Alert)) (s : Dashboard) : CyclePhase × Dashboard :=
  if predictionsRes.ok then (CyclePhase.readingPredictions predictionsRes alertsRes, s)
  else proceedAlerts alertsRes s

/-- The first `if` block (lines 45-49) and what follows, once `Promise.all`
has returned the three responses. -/
def proceedTelemetry (telemetryRes : Response (List TelemetryReading))
    (predictionsRes : Response (List Prediction)) (alertsRes : Response (List Alert))
    (s : Dashboard) : CyclePhase × Dashboard :=
  if telemetryRes.ok then
    (CyclePhase.readingTelemetry telemetryRes predictionsRes alertsRes, s)
  else proceedPredictions predictionsRes alertsRes s

/-- A throw inside the `try` block: `catch` logs, `finally` lowers the flag,
the call returns. -/
def cycleThrows (s : Dashboard) : CyclePhase × Dashboard :=
  (CyclePhase.done, Dashboard.afterTry { state := s, threw := true })

/-- The `await` on `Promise.all` (line 39) after a request has settled: it
throws as soon as one request is rejected, returns the three responses once all
have resolved, and keeps waiting otherwise.  In every other phase the call is
not waiting for a request. -/
def Cycle.afterSettle (c : Cycle) (s : Dashboard) : Cycle × Dashboard :=
  match c.phase with
  | CyclePhase.awaitingAll =>
    if isRejected c.telemetry || isRejected c.predictions || isRejected c.alerts then
      ({ c with phase := (cycleThrows s).1 }, (cycleThrows s).2)
    else
      match response? c.telemetry, response? c.predictions, response? c.alerts with
      | some t, some p, some a =>
        ({ c with phase := (proceedTelemetry t p a s).1 }, (proceedTelemetry t p a s).2)
      | _, _, _ => (c, s)
  | _ => (c, s)

/-- The body awaited by the call has been read (or has failed to be read):
the call resumes after its `await ...Res.json()` (lines 46-48, 52-53, 57-58). -/
def Cycle.afterBody (c : Cycle) (s : Dashboard) : Cycle × Dashboard :=
  match c.phase with
  | CyclePhase.readingTelemetry t p a =>
    match t.body with
    | Body.readable d =>
      ({ c with
         phase := (proceedPredictions p a
           { s with telemetryData := d, realTimeData := d[0]? }).1 },
       (proceedPredictions p a { s with telemetryData := d, realTimeData := d[0]? }).2)
    | Body.unreadable => ({ c with phase := (cycleThrows s).1 }, (cycleThrows s).2)
  | CyclePhase.readingPredictions p a =>
    match p.body with
    | Body.readable d =>
      ({ c with phase := (proceedAlerts a { s with predictions := d }).1 },
       (proceedAlerts a { s with predictions := d }).2)
    | Body.unreadable => ({ c with phase := (cycleThrows s).1 }, (cycleThrows s).2)
  | CyclePhase.readingAlerts a =>
    match a.body with
    | Body.readable d =>
      ({ c with phase := CyclePhase.done },
       Dashboard.afterTry { state := { s with alerts := d }, threw := false })
    | Body.unreadable => ({ c with phase := (cycleThrows s).1 }, (cycleThrows s).2)
  | _ => (c, s)

/-- One of the three requests of the call has been rejected. -/
def Cycle.anyRejected (c : Cycle) : Bool :=
  isRejected c.telemetry || isRejected c.predictions || isRejected c.alerts

/-- The call resumed three times in a row after a body read: enough to take
it from any `await ...Res.json()` to its end. -/
def Cycle.readAll (c : Cycle) (s : Dashboard) : Cycle × Dashboard :=
  let r1 := Cycle.afterBody c s
  let r2 := Cycle.afterBody r1.1 r1.2
  Cycle.afterBody r2.1 r2.2

/-- The `catch` and `finally` blocks of `generateReport` (lines 86-90) after
a throw. -/
def reportThrows (s : Dashboard) : Dashboard :=
  { s with
    loading := false
    host := { s.host with console := s.host.console ++ ["Error generating report:"] } }

/-- What resumes a suspended call: one of its requests settles, or the body
it awaits has been read.  For a report, `windowOpens` says whether
`window.open` returns a window. -/
inductive Resume where
  | telemetry (o : FetchOutcome (List TelemetryReading)) : Resume
  | predictions (o : FetchOutcome (List Prediction)) : Resume
  | alerts (o : FetchOutcome (List Alert)) : Resume
  | body : Resume
  | report (o : FetchOutcome ReportData) : Resume
  | reportBody (windowOpens : Bool) : Resume

/-- One resumption of a call.  A request settles only once; a resumption
that does not fit where the call is suspended does nothing. -/
def Call.resume (call : Call) (r : Resume) (s : Dashboard) : Call × Dashboard :=
  match call, r with
  | Call.cycle c, Resume.telemetry o =>
    match c.telemetry with
    | none =>
      (Call.cycle (Cycle.afterSettle { c with telemetry := some o } s).1,
       (Cycle.afterSettle { c with telemetry := some o } s).2)
    | some _ => (call, s)
  | Call.cycle c, Resume.predictions o =>
    match c.predictions with
    | none =>
      (Call.cycle (Cycle.afterSettle { c with predictions := some o } s).1,
       (Cycle.afterSettle { c with predictions := some o } s).2)
    | some _ => (call, s)
  | Call.cycle c, Resume.alerts o =>
    match c.alerts with
    | none =>
      (Call.cycle (Cycle.afterSettle { c with alerts := some o } s).1,
       (Cycle.afterSettle { c with alerts := some o } s).2)
    | some _ => (call, s)
  | Call.cycle c, Resume.body => (Call.cycle (Cycle.afterBody c s).1, (Cycle.afterBody c s).2)
  | Call.report id ReportPhase.awaitingFetch, Resume.report o =>
    match o with
    | FetchOutcome.rejected => (Call.report id ReportPhase.done, reportThrows s)
    | FetchOutcome.resolved response =>
      if response.ok then (Call.report id (ReportPhase.readingBody response), s)
      else (Call.report id ReportPhase.done, { s with loading := false })
  | Call.report id (ReportPhase.readingBody response), Resume.reportBody windowOpens =>
    match response.body with
    | Body.unreadable => (Call.report id ReportPhase.done, reportThrows s)
    | Body.readable data =>
      if windowOpens then
        (Call.report id ReportPhase.done,
         { s with
           loading := false
           host := { s.host with
             documents := s.host.documents ++ [ReportDocument.dashboardPage data.report] } })
      else (Call.report id ReportPhase.done, reportThrows s)
  | _, _ => (call, s)

/-- The mounted component: its state, the installation list of line 6, the
number of `fetchInstallations` requests not yet answered, and the calls started
so far, oldest first. -/
structure Page where
  dash : Dashboard
  installations : List Installation
  installationRequests : Nat
  calls : List Call
  deriving DecidableEq

/-- What can happen to the mounted component: a `fetchInstallations` request
is answered, the operator picks an installation in the selector (line 150), the
interval fires (line 19), the operator clicks the report button (line 161), or
the call at position `k` resumes. -/
inductive Action where
  | installationsArrive (o : FetchOutcome (List Installation)) : Action
  | select (id : String) : Action
  | tick : Action
  | clickReport : Action
  | resume (k : Nat) (r : Resume) : Action

/-- The effect of lines 14-21 for the current selection: `fetchInstallations()`
issues its request, `fetchDashboardData()` runs up to its first `await`. -/
def Page.runEffect (m : Page) : Page :=
  { m with
    dash := Dashboard.beginFetch
      { m.dash with
        host := { m.dash.host with requests := m.dash.host.requests ++ ["/api/installations"] } }
    installationRequests := m.installationRequests + 1
    calls := m.calls ++ [Call.cycle (Cycle.start m.dash.selectedInstallation)] }

/-- The component after mounting: the effect has run once on the initial
state. -/
def Page.mount : Page :=
  Page.runEffect
    { dash := Dashboard.initial, installations := [], installationRequests := 0, calls := [] }

/-- The function `fetchInstallations` (lines 23-33) from its `await fetch` to
its end, for a request that ends as `o`; its two `await`s write nothing in
between. -/
def fetchInstallationsDone (o : FetchOutcome (List Installation)) (m : Page) : Page :=
  match o with
  | FetchOutcome.rejected =>
    { m with
      dash := { m.dash with
        host := { m.dash.host with
          console := m.dash.host.console ++ ["Error fetching installations:"] } } }
  | FetchOutcome.resolved response =>
    if response.ok then
      match response.body with
      | Body.readable data => { m with installations := data }
      | Body.unreadable =>
        { m with
          dash := { m.dash with
            host := { m.dash.host with
              console := m.dash.host.console ++ ["Error fetching installations:"] } } }
    else m

/-- One step of the component.

* An answer to `fetchInstallations` needs a request in flight.
* The selector exists only when the spinner is not shown, its options are the
  installations, and picking the current one changes nothing; picking another
  one sets the selection and re-runs the effect.
* The interval calls `fetchDashboardData` for the current selection.
* The report button exists only when the spinner is not shown and is disabled
  while `loading`; a click runs `generateReport` up to its first `await`.
* A resumption runs the call at position `k` up to its next `await` or its end,
  on the current state. -/
def Page.step (m : Page) (a : Action) : Page :=
  match a with
  | Action.installationsArrive o =>
    if m.installationRequests = 0 then m
    else fetchInstallationsDone o { m with installationRequests := m.installationRequests - 1 }
  | Action.select id =>
    if m.dash.spinner then m
    else if id ∈ m.installations.map (fun inst => inst.id) then
      if id = m.dash.selectedInstallation then m
      else Page.runEffect { m with dash := { m.dash with selectedInstallation := id } }
    else m
  | Action.tick =>
    { m with
      dash := m.dash.beginFetch
      calls := m.calls ++ [Call.cycle (Cycle.start m.dash.selectedInstallation)] }
  | Action.clickReport =>
    if m.dash.spinner || m.dash.loading then m
    else
      { m with
        dash := { m.dash with
          loading := true
          host := { m.dash.host with
            requests := m.dash.host.requests ++
              ["/api/report/" ++ m.dash.selectedInstallation] } }
        calls := m.calls ++ [Call.report m.dash.selectedInstallation ReportPhase.awaitingFetch] }
  | Action.resume k r =>
    match m.calls[k]? with
    | none => m
    | some call =>
      { m with dash := (call.resume r m.dash).2, calls := m.calls.set k (call.resume r m.dash).1 }

/-- The component after a sequence of steps. -/
def Page.run (m : Page) (actions : List Action) : Page :=
  actions.foldl Page.step m

/-! ## fetchNotifications -/

/-- The state of the `App` component (line 10) and its environment. -/
structure App where
  notifications : List Alert
  host : Host
  deriving DecidableEq

/-- The initial state of `App` (line 10). -/
def App.initial : App :=
  { notifications := [], host := Host.empty }

/-- The `try` block of `fetchNotifications` (lines 21-26) when the request
ends as `o`. -/
def fetchNotificationsTry (o : FetchOutcome (List Alert)) (s : App) : Completion App :=
  let s1 : App :=
    { s with host := { s.host with requests := s.host.requests ++ ["/api/alerts/INST_001"] } }
  match o with
  | FetchOutcome.rejected => { state := s1, threw := true }
  | FetchOutcome.resolved response =>
    whenOk response (fun alerts st => { st with notifications := alerts.take 3 }) s1

/-- The function `fetchNotifications` of `App.jsx` (lines 19-30): the `catch`
block logs and swallows whatever the `try` block threw. -/
def fetchNotifications (o : FetchOutcome (List Alert)) (s : App) : Completion App :=
  let c := fetchNotificationsTry o s
  if c.threw then
    { state :=
        { c.state with
          host := { c.state.host with
            console := c.state.host.console ++ ["Error fetching notifications:"] } }
      threw := false }
  else c

/-! ## generateReport -/

/-- The state of the `Reports` component (lines 5-7) and its environment. -/
structure Reports where
  selectedInstallation : String
  reportType : String
  loading : Bool
  host : Host
  deriving DecidableEq

/-- The initial state of `Reports` (lines 5-7). -/
def Reports.initial : Reports :=
  { selectedInstallation := "INST_001", reportType := "performance", loading := false,
    host := Host.empty }

/-- The `try` block of `generateReport` in `Reports.jsx` (lines 12-48).
`generated` is the host text of `new Date().toLocaleString()`; `windowOpens`
says whether `window.open` returns a window (writing to `null` throws). -/
def Reports.generateReportTry (generated : String) (windowOpens : Bool)
    (o : FetchOutcome ReportData) (s : Reports) : Completion Reports :=
  let s1 : Reports :=
    { s with
      host := { s.host with
        requests := s.host.requests ++ ["/api/report/" ++ s.selectedInstallation] } }
  match o with
  | FetchOutcome.rejected => { state := s1, threw := true }
  | FetchOutcome.resolved response =>
    if response.ok then
      match response.body with
      | Body.unreadable => { state := s1, threw := true }
      | Body.readable data =>
        if windowOpens then
          { state :=
              { s1 with
                host := { s1.host with
                  documents := s1.host.documents ++
                    [ReportDocument.reportsPage s1.selectedInstallation generated data.report] } }
            threw := false }
        else { state := s1, threw := true }
    else { state := s1, threw := false }

/-- The function `generateReport` of `Reports.jsx` (lines 9-55): the `catch`
block logs and shows an `alert`, the `finally` block lowers the loading flag. -/
def Reports.generateReport (generated : String) (windowOpens : Bool)
    (o : FetchOutcome ReportData) (s : Reports) : Completion Reports :=
  let c := Reports.generateReportTry generated windowOpens o { s with loading := true }
  let s1 : Reports :=
    if c.threw then
      { c.state with
        host := { c.state.host with
          console := c.state.host.console ++ ["Error generating report:"]
          notices := c.state.host.notices ++ ["Failed to generate report. Please try again."] } }
    else c.state
  { state := { s1 with loading := false }, threw := false }

/-- The `try` block of `generateReport` in `Dashboard.jsx` (lines 70-85). -/
def Dashboard.generateReportTry (windowOpens : Bool) (o : FetchOutcome ReportData)
    (s : Dashboard) : Completion Dashboard :=
  let s1 : Dashboard :=
    { s with
      loading := true
      host := { s.host with
        requests := s.host.requests ++ ["/api/report/" ++ s.selectedInstallation] } }
  match o with
  | FetchOutcome.rejected => { state := s1, threw := true }
  | FetchOutcome.resolved response =>
    if response.ok then
      match response.body with
      | Body.unreadable => { state := s1, threw := true }
      | Body.readable data =>
        if windowOpens then
          { state :=
              { s1 with
                host := { s1.host with
                  documents := s1.host.documents ++ [ReportDocument.dashboardPage data.report] } }
            threw := false }
        else { state := s1, threw := true }
    else { state := s1, threw := false }

/-- The function `generateReport` of `Dashboard.jsx` (lines 68-91): the
`catch` block only logs, the `finally` block lowers the loading flag. -/
def Dashboard.generateReport (windowOpens : Bool) (o : FetchOutcome ReportData)
    (s : Dashboard) : Completion Dashboard :=
  let c := Dashboard.generateReportTry windowOpens o s
  let s1 : Dashboard :=
    if c.threw then
      { c.state with
        host := { c.state.host with
          console := c.state.host.console ++ ["Error generating report:"] } }
    else c.state
  { state := { s1 with loading := false }, threw := false }

/-! ## Sample data -/

/-- A sample reading with the given power, for the worked examples. -/
def sampleReading (t : Int) (p : ℚ) : TelemetryReading :=
  { timestamp := t, pv_power_kw := p, module_temp_c := 25, irradiation_wm2 := 800,
    inverter_efficiency := 96, wind_speed_ms := 3, humidity_percent := 40,
    dust_level := 1 / 10 }

/-- The double nearest to 0.1, which is what the JSON number `0.1` parses to. -/
def tenthDouble : ℚ := 3602879701896397 / 36028797018963968

/-- A sample prediction with the given efficiency score, for the worked examples. -/
def samplePrediction (e : ℚ) : Prediction :=
  { predicted_power_kw := 4, efficiency_score := e, maintenance_score := 70 }

/-- A sample alert with the given id and severity, for the worked examples. -/
def sampleAlert (i : Int) (sev : String) : Alert :=
  { id := i, alert_type := "LOW_POWER", severity := sev, message := "power below forecast",
    timestamp := 1000 + i }

/-- A stand-in for the host formatting of an instant, for the worked examples. -/
def sampleFormat (t : Int) : String :=
  toString t

/-- A 2xx response with a readable body. -/
def okResponse {β : Type} (value : β) : Response β :=
  { ok := true, body := Body.readable value }

/-- A 2xx response whose body cannot be read. -/
def brokenResponse (β : Type) : Response β :=
  { ok := true, body := Body.unreadable }

/-- A response with status 500 and a readable body. -/
def errorResponse {β : Type} (value : β) : Response β :=
  { ok := false, body := Body.readable value }

/-- Two installations of the registry. -/
def sampleInstallations : List Installation :=
  [{ id := "INST_001", name := "Mumbai Residential", capacity_kw := 5 },
   { id := "INST_002", name := "Delhi Commercial", capacity_kw := 50 }]

/-- A run of the mounted component: the registry answers, the first cycle
brings a telemetry reading (predictions and alerts answer 500), the interval
starts a second cycle for INST_001, and the operator then selects INST_002. -/
def staleRun : List Action :=
  [Action.installationsArrive (FetchOutcome.resolved (okResponse sampleInstallations)),
   Action.resume 0 (Resume.telemetry (FetchOutcome.resolved (okResponse [sampleReading 1 5]))),
   Action.resume 0 (Resume.predictions (FetchOutcome.resolved (errorResponse []))),
   Action.resume 0 (Resume.alerts (FetchOutcome.resolved (errorResponse []))),
   Action.resume 0 Resume.body,
   Action.tick,
   Action.select "INST_002"]

/-- The second cycle, issued for INST_001, gets its three 2xx responses and
their bodies are read. -/
def staleArrival : List Action :=
  [Action.resume 1 (Resume.telemetry (FetchOutcome.resolved (okResponse [sampleReading 2 3]))),
   Action.resume 1
     (Resume.predictions (FetchOutcome.resolved (okResponse [samplePrediction (85 / 100)]))),
   Action.resume 1 (Resume.alerts (FetchOutcome.resolved (okResponse [sampleAlert 1 "HIGH"]))),
   Action.resume 1 Resume.body,
   Action.resume 1 Resume.body,
   Action.resume 1 Resume.body]

/-- A run of the mounted component: the first cycle gets three 500 responses,
the interval fires twice, and the second cycle gets three 500 responses while
the third is still waiting for all of its requests. -/
def overlapRun : List Action :=
  [Action.resume 0 (Resume.telemetry (FetchOutcome.resolved (errorResponse []))),
   Action.resume 0 (Resume.predictions (FetchOutcome.resolved (errorResponse []))),
   Action.resume 0 (Resume.alerts (FetchOutcome.resolved (errorResponse []))),
   Action.tick,
   Action.tick,
   Action.resume 1 (Resume.telemetry (FetchOutcome.resolved (errorResponse []))),
   Action.resume 1 (Resume.predictions (FetchOutcome.resolved (errorResponse []))),
   Action.resume 1 (Resume.alerts (FetchOutcome.resolved (errorResponse [])))]

/-! ## Lemmas on the reductions -/

theorem foldl_add_eq_sum {α : Type} (f : α → ℚ) (l : List α) (a : ℚ) :
    l.foldl (fun sum d => sum + f d) a = a + (l.map f).sum := by
  induction l generalizing a with
  | nil => simp
  | cons x xs ih => simp [ih, add_assoc]

theorem sumPower_eq_sum (telemetryData : List TelemetryReading) :
    sumPower telemetryData = (telemetryData.map fun d => d.pv_power_kw).sum := by
  simp [sumPower, foldl_add_eq_sum]

theorem sumEfficiency_eq_sum (predictions : List Prediction) :
    sumEfficiency predictions = (predictions.map fun p => p.efficiency_score).sum := by
  simp [sumEfficiency, foldl_add_eq_sum]

theorem orZero_some (x : ℚ) : orZero (some x) = x := by
  by_cases h : x = 0
  · simp [orZero, h]
  · simp [orZero, h]

/-- Folding `maxStep` from a finite value ends on a finite value that is the
start or an element, and bounds the start and every element. -/
theorem foldl_maxStep_fin (xs : List ℚ) (h : ℚ) :
    ∃ m, xs.foldl maxStep (JsNum.fin h) = JsNum.fin m ∧ (m = h ∨ m ∈ xs) ∧ h ≤ m ∧
      ∀ y ∈ xs, y ≤ m := by
  induction xs generalizing h with
  | nil => exact ⟨h, rfl, Or.inl rfl, le_refl h, by simp⟩
  | cons x xs ih =>
    by_cases hx : h < x
    · obtain ⟨m, hm, hmem, hle, hall⟩ := ih x
      refine ⟨m, ?_, ?_, le_trans (le_of_lt hx) hle, ?_⟩
      · simpa [List.foldl, maxStep, hx] using hm
      · rcases hmem with rfl | hmem
        · exact Or.inr (List.mem_cons_self _ _)
        · exact Or.inr (List.mem_cons_of_mem _ hmem)
      · intro y hy
        rcases List.mem_cons.mp hy with rfl | hy
        · exact hle
        · exact hall y hy
    · obtain ⟨m, hm, hmem, hle, hall⟩ := ih h
      refine ⟨m, ?_, ?_, hle, ?_⟩
      · simpa [List.foldl, maxStep, hx] using hm
      · rcases hmem with rfl | hmem
        · exact Or.inl rfl
        · exact Or.inr (List.mem_cons_of_mem _ hmem)
      · intro y hy
        rcases List.mem_cons.mp hy with rfl | hy
        · exact le_trans (not_lt.mp hx) hle
        · exact hall y hy

/-- On at least one argument `Math.max` is finite, is one of the arguments
and bounds them all. -/
theorem mathMax_spec (xs : List ℚ) (hne : xs ≠ []) :
    ∃ m, mathMax xs = JsNum.fin m ∧ m ∈ xs ∧ ∀ y ∈ xs, y ≤ m := by
  cases xs with
  | nil => exact absurd rfl hne
  | cons x xs =>
    obtain ⟨m, hm, hmem, hle, hall⟩ := foldl_maxStep_fin xs x
    refine ⟨m, ?_, ?_, ?_⟩
    · simpa [mathMax, List.foldl, maxStep] using hm
    · rcases hmem with rfl | hmem
      · exact List.mem_cons_self _ _
      · exact List.mem_cons_of_mem _ hmem
    · intro y hy
      rcases List.mem_cons.mp hy with rfl | hy
      · exact hle
      · exact hall y hy

theorem calculateMetrics_nil (predictions : List Prediction) :
    calculateMetrics [] predictions = emptyObject := by
  simp [calculateMetrics]

theorem calculateMetrics_cons (first : TelemetryReading) (rest : List TelemetryReading)
    (predictions : List Prediction) :
    calculateMetrics (first :: rest) predictions =
      { currentPower := some first.pv_power_kw
        avgPower := some (sumPower (first :: rest) / ((first :: rest).length : ℚ))
        maxPower := some (mathMax ((first :: rest).map fun d => d.pv_power_kw))
        efficiency := some (avgEfficiency predictions * 100)
        temperature := some first.module_temp_c
        irradiation := some first.irradiation_wm2
        dustLevel := some (first.dust_level * 100) } := by
  simp [calculateMetrics, orZero_some]

/-! ## Lemmas on the chart window -/

theorem chartWindow_length (telemetryData : List TelemetryReading) :
    (chartWindow telemetryData).length = min telemetryData.length 20 := by
  simp [chartWindow, Nat.min_comm]

/-- Position `k` of the window holds the reading at input position
`min L 20 - 1 - k`. -/
theorem chartWindow_getElem? (telemetryData : List TelemetryReading) (k : Nat)
    (hk : k < min telemetryData.length 20) :
    (chartWindow telemetryData)[k]? = telemetryData[min telemetryData.length 20 - 1 - k]? := by
  have hlen : (telemetryData.take 20).length = min telemetryData.length 20 := by
    simp [Nat.min_comm]
  unfold chartWindow
  rw [List.getElem?_reverse (by omega), hlen]
  exact List.getElem?_take_of_lt (by omega)

theorem chartData_length (toLocaleTimeString : Int → String)
    (telemetryData : List TelemetryReading) :
    (chartData toLocaleTimeString telemetryData).length = min telemetryData.length 20 := by
  simp [chartData, chartWindow_length]

/-- Position `k` of the chart holds the projection of the reading at input
position `min L 20 - 1 - k`. -/
theorem chartData_getElem? (toLocaleTimeString : Int → String)
    (telemetryData : List TelemetryReading) (k : Nat)
    (hk : k < min telemetryData.length 20) :
    ∃ d, telemetryData[min telemetryData.length 20 - 1 - k]? = some d ∧
      (chartData toLocaleTimeString telemetryData)[k]? =
        some (chartPoint toLocaleTimeString d) := by
  have hlt : min telemetryData.length 20 - 1 - k < telemetryData.length := by omega
  refine ⟨telemetryData[min telemetryData.length 20 - 1 - k], ?_, ?_⟩
  · exact List.getElem?_eq_getElem hlt
  · simp only [chartData, List.getElem?_map]
    rw [chartWindow_getElem? telemetryData k hk, List.getElem?_eq_getElem hlt]
    rfl

/-! ## Lemmas on rounding -/

theorem roundHalfEven_of_floor (x : ℚ) (f : ℤ) (h1 : (f : ℚ) ≤ x) (h2 : x < f + 1) :
    roundHalfEven x =
      if x - f < 1 / 2 then f
      else if 1 / 2 < x - f then f + 1
      else if f % 2 = 0 then f else f + 1 := by
  have hf : ⌊x⌋ = f := Int.floor_eq_iff.mpr ⟨h1, h2⟩
  simp only [roundHalfEven, hf]

theorem roundHalfEven_nonneg (x : ℚ) (hx : 0 ≤ x) : 0 ≤ roundHalfEven x := by
  have hf : 0 ≤ ⌊x⌋ := Int.floor_nonneg.mpr hx
  unfold roundHalfEven
  simp only
  split_ifs <;> omega

theorem quantum_pos (x : ℚ) : 0 < quantum x := by
  unfold quantum
  positivity

/-- The spacing around a positive `x` with `2^e ≤ x < 2^(e+1)`. -/
theorem quantum_of_binade (x : ℚ) (e : ℤ) (hx : 0 < x) (h1 : (2 : ℚ) ^ e ≤ x)
    (h2 : x < (2 : ℚ) ^ (e + 1)) : quantum x = 2 ^ max (e - 52) (-1074) := by
  have hlog : Int.log 2 |x| = e := by
    rw [abs_of_pos hx]
    have ha : e ≤ Int.log 2 x :=
      (Int.zpow_le_iff_le_log (by norm_num) hx).mp (by exact_mod_cast h1)
    have hb : Int.log 2 x < e + 1 :=
      (Int.lt_zpow_iff_log_lt (by norm_num) hx).mp (by exact_mod_cast h2)
    omega
  simp only [quantum, hlog]

theorem maxDouble_pos : 0 < maxDouble := by
  norm_num [maxDouble]

/-- Rounding a non-negative exact result gives a non-negative double or
`+Infinity`. -/
theorem roundDouble_nonneg (x : ℚ) (hx : 0 ≤ x) :
    roundDouble x = JsDouble.posInfinity ∨ ∃ b, roundDouble x = JsDouble.finite b ∧ 0 ≤ b := by
  unfold roundDouble
  by_cases h0 : x = 0
  · exact Or.inr ⟨0, by simp [h0], le_refl 0⟩
  · have hq := quantum_pos x
    have hk : (0 : ℚ) ≤ (roundHalfEven (x / quantum x) : ℚ) := by
      exact_mod_cast roundHalfEven_nonneg _ (div_nonneg hx hq.le)
    have hr : 0 ≤ (roundHalfEven (x / quantum x) : ℚ) * quantum x := mul_nonneg hk hq.le
    simp only [h0, if_false]
    by_cases hmax : maxDouble < (roundHalfEven (x / quantum x) : ℚ) * quantum x
    · exact Or.inl (by simp [hmax])
    · have hneg : ¬ (roundHalfEven (x / quantum x) : ℚ) * quantum x < -maxDouble := by
        have := maxDouble_pos
        intro h
        linarith
      exact Or.inr ⟨_, by simp [hmax, hneg], hr⟩

theorem addDouble_nonneg (sum : JsDouble) (x : ℚ) (hx : 0 ≤ x)
    (hs : sum = JsDouble.posInfinity ∨ ∃ b, sum = JsDouble.finite b ∧ 0 ≤ b) :
    addDouble sum x = JsDouble.posInfinity ∨
      ∃ b, addDouble sum x = JsDouble.finite b ∧ 0 ≤ b := by
  rcases hs with rfl | ⟨b, rfl, hb⟩
  · exact Or.inl rfl
  · exact roundDouble_nonneg _ (add_nonneg hb hx)

theorem foldl_addDouble_nonneg (l : List TelemetryReading) (sum : JsDouble)
    (hl : ∀ d ∈ l, 0 ≤ d.pv_power_kw)
    (hs : sum = JsDouble.posInfinity ∨ ∃ b, sum = JsDouble.finite b ∧ 0 ≤ b) :
    l.foldl (fun sum d => addDouble sum d.pv_power_kw) sum = JsDouble.posInfinity ∨
      ∃ b, l.foldl (fun sum d => addDouble sum d.pv_power_kw) sum = JsDouble.finite b ∧
        0 ≤ b := by
  induction l generalizing sum with
  | nil => exact hs
  | cons d ds ih =>
    exact ih _ (fun d2 hd2 => hl d2 (List.mem_cons_of_mem _ hd2))
      (addDouble_nonneg sum _ (hl d (List.mem_cons_self _ _)) hs)

/-- On non-negative readings the rounded mean is a non-negative double or
`+Infinity`. -/
theorem avgPowerDouble_nonneg (telemetryData : List TelemetryReading)
    (hpos : ∀ d ∈ telemetryData, 0 ≤ d.pv_power_kw) :
    avgPowerDouble telemetryData = JsDouble.posInfinity ∨
      ∃ b, avgPowerDouble telemetryData = JsDouble.finite b ∧ 0 ≤ b := by
  unfold avgPowerDouble sumPowerDouble
  rcases foldl_addDouble_nonneg telemetryData (JsDouble.finite 0) hpos
    (Or.inr ⟨0, rfl, le_refl 0⟩) with h | ⟨b, h, hb⟩
  · rw [h]
    exact Or.inl rfl
  · rw [h]
    exact roundDouble_nonneg _ (div_nonneg hb (Nat.cast_nonneg _))

/-- The rounding of a positive exact result from its binade `e` and the
floor `f` of its quotient by the spacing. -/
theorem roundDouble_of_binade (x : ℚ) (e f : ℤ) (hx : 0 < x) (h1 : (2 : ℚ) ^ e ≤ x)
    (h2 : x < (2 : ℚ) ^ (e + 1))
    (hf1 : (f : ℚ) ≤ x / 2 ^ max (e - 52) (-1074))
    (hf2 : x / 2 ^ max (e - 52) (-1074) < f + 1) :
    roundDouble x =
      (let k : ℤ :=
        if x / 2 ^ max (e - 52) (-1074) - f < 1 / 2 then f
        else if 1 / 2 < x / 2 ^ max (e - 52) (-1074) - f then f + 1
        else if f % 2 = 0 then f else f + 1
       let r : ℚ := k * 2 ^ max (e - 52) (-1074)
       if maxDouble < r then JsDouble.posInfinity
       else if r < -maxDouble then JsDouble.negInfinity
       else JsDouble.finite r) := by
  have hq := quantum_of_binade x e hx h1 h2
  have hne : x ≠ 0 := ne_of_gt hx
  simp only [roundDouble, hne, if_false, hq, roundHalfEven_of_floor _ f hf1 hf2]

theorem roundDouble_tenth : roundDouble tenthDouble = JsDouble.finite tenthDouble := by
  rw [roundDouble_of_binade tenthDouble (-4) 7205759403792794 (by norm_num [tenthDouble])
    (by norm_num [tenthDouble]) (by norm_num [tenthDouble]) (by norm_num [tenthDouble])
    (by norm_num [tenthDouble])]
  norm_num [tenthDouble, maxDouble]

theorem roundDouble_two_tenths :
    roundDouble (tenthDouble + tenthDouble) = JsDouble.finite (2 * tenthDouble) := by
  rw [roundDouble_of_binade (tenthDouble + tenthDouble) (-3) 7205759403792794
    (by norm_num [tenthDouble]) (by norm_num [tenthDouble]) (by norm_num [tenthDouble])
    (by norm_num [tenthDouble]) (by norm_num [tenthDouble])]
  norm_num [tenthDouble, maxDouble]

/-- The sum 0.2 + 0.1 is a tie and rounds up to 0.30000000000000004. -/
theorem roundDouble_three_tenths :
    roundDouble (2 * tenthDouble + tenthDouble) =
      JsDouble.finite (5404319552844596 / 18014398509481984) := by
  rw [roundDouble_of_binade (2 * tenthDouble + tenthDouble) (-2) 5404319552844595
    (by norm_num [tenthDouble]) (by norm_num [tenthDouble]) (by norm_num [tenthDouble])
    (by norm_num [tenthDouble]) (by norm_num [tenthDouble])]
  norm_num [tenthDouble, maxDouble]

/-- The quotient 0.30000000000000004 / 3 rounds to 0.10000000000000002. -/
theorem roundDouble_mean_of_tenths :
    roundDouble (5404319552844596 / 18014398509481984 / 3) =
      JsDouble.finite (7205759403792795 / 72057594037927936) := by
  rw [roundDouble_of_binade (5404319552844596 / 18014398509481984 / 3) (-4) 7205759403792794
    (by norm_num) (by norm_num) (by norm_num) (by norm_num) (by norm_num)]
  norm_num [maxDouble]

/-- Three readings of 0.1 average to 0.10000000000000002 in doubles. -/
theorem avgPowerDouble_tenths :
    avgPowerDouble [sampleReading 3 tenthDouble, sampleReading 2 tenthDouble,
      sampleReading 1 tenthDouble] =
      JsDouble.finite (7205759403792795 / 72057594037927936) := by
  simp only [avgPowerDouble, sumPowerDouble, List.foldl, addDouble, sampleReading, zero_add,
    roundDouble_tenth, roundDouble_two_tenths, roundDouble_three_tenths, divDouble,
    List.length_cons, List.length_nil]
  convert roundDouble_mean_of_tenths using 2

/-! ## Metrics aggregator -/

/-- C1: for every non-empty reading sequence, `calculateMetrics` returns
`avgPower` equal to the sum of `pv_power_kw` over the whole sequence divided
by the length of the whole sequence. -/
theorem C1_avgPower_is_mean (telemetryData : List TelemetryReading)
    (predictions : List Prediction) (hne : telemetryData ≠ []) :
    (calculateMetrics telemetryData predictions).avgPower =
      some ((telemetryData.map fun d => d.pv_power_kw).sum / (telemetryData.length : ℚ)) := by
  cases telemetryData with
  | nil => exact absurd rfl hne
  | cons first rest => rw [calculateMetrics_cons, sumPower_eq_sum]

/-- C1, worked example: readings with `pv_power_kw` 5 and 3 give `avgPower = 4`. -/
theorem C1_avgPower_is_mean_witness :
    (calculateMetrics [sampleReading 2 5, sampleReading 1 3] []).avgPower = some 4 := by
  rw [C1_avgPower_is_mean [sampleReading 2 5, sampleReading 1 3] [] (by simp)]
  norm_num [sampleReading]

/-- C2: for every non-empty reading sequence, `maxPower` is a finite number
that is the `pv_power_kw` of some reading of the sequence and is greater than
or equal to the `pv_power_kw` of every reading of the sequence. -/
theorem C2_maxPower_is_maximum (telemetryData : List TelemetryReading)
    (predictions : List Prediction) (hne : telemetryData ≠ []) :
    ∃ m : ℚ, (calculateMetrics telemetryData predictions).maxPower = some (JsNum.fin m) ∧
      (∃ d ∈ telemetryData, d.pv_power_kw = m) ∧
      ∀ d ∈ telemetryData, d.pv_power_kw ≤ m := by
  obtain ⟨m, hm, hmem, hall⟩ :=
    mathMax_spec (telemetryData.map fun d => d.pv_power_kw) (by simpa using hne)
  refine ⟨m, ?_, ?_, ?_⟩
  · cases telemetryData with
    | nil => exact absurd rfl hne
    | cons first rest => rw [calculateMetrics_cons, hm]
  · obtain ⟨d, hd, hdm⟩ := List.mem_map.mp hmem
    exact ⟨d, hd, hdm⟩
  · intro d hd
    exact hall _ (List.mem_map.mpr ⟨d, hd, rfl⟩)

/-- C2, worked example: readings with `pv_power_kw` 5 and 3 give `maxPower = 5`. -/
theorem C2_maxPower_is_maximum_witness :
    (calculateMetrics [sampleReading 2 5, sampleReading 1 3] []).maxPower =
      some (JsNum.fin 5) := by
  obtain ⟨m, hm, ⟨d, hd, hdm⟩, hall⟩ :=
    C2_maxPower_is_maximum [sampleReading 2 5, sampleReading 1 3] [] (by simp)
  have h5 : (5 : ℚ) ≤ m := by
    simpa [sampleReading] using hall (sampleReading 2 5) (by simp)
  have hm5 : m ≤ 5 := by
    simp only [List.mem_cons, List.mem_singleton, List.not_mem_nil, or_false] at hd
    rcases hd with rfl | rfl
    · simp [sampleReading] at hdm
      linarith
    · simp [sampleReading] at hdm
      linarith
  rw [hm, le_antisymm hm5 h5]

/-- C3: for a reading sequence `first :: rest`, `currentPower`, `temperature`,
`irradiation` and `dustLevel` are the `pv_power_kw`, `module_temp_c`,
`irradiation_wm2` and `dust_level × 100` of `first`; replacing the other
readings (and the predictions) by any others leaves the four unchanged. -/
theorem C3_latest_fields_from_first (first : TelemetryReading)
    (rest : List TelemetryReading) (predictions : List Prediction) :
    (calculateMetrics (first :: rest) predictions).currentPower = some first.pv_power_kw ∧
    (calculateMetrics (first :: rest) predictions).temperature = some first.module_temp_c ∧
    (calculateMetrics (first :: rest) predictions).irradiation = some first.irradiation_wm2 ∧
    (calculateMetrics (first :: rest) predictions).dustLevel = some (first.dust_level * 100) ∧
    ∀ (rest2 : List TelemetryReading) (predictions2 : List Prediction),
      (calculateMetrics (first :: rest2) predictions2).currentPower =
        (calculateMetrics (first :: rest) predictions).currentPower ∧
      (calculateMetrics (first :: rest2) predictions2).temperature =
        (calculateMetrics (first :: rest) predictions).temperature ∧
      (calculateMetrics (first :: rest2) predictions2).irradiation =
        (calculateMetrics (first :: rest) predictions).irradiation ∧
      (calculateMetrics (first :: rest2) predictions2).dustLevel =
        (calculateMetrics (first :: rest) predictions).dustLevel := by
  refine ⟨?_, ?_, ?_, ?_, ?_⟩
  · rw [calculateMetrics_cons]
  · rw [calculateMetrics_cons]
  · rw [calculateMetrics_cons]
  · rw [calculateMetrics_cons]
  · intro rest2 predictions2
    simp only [calculateMetrics_cons, and_self]

/-- C4 as stated fails: for the empty reading sequence none of
`currentPower`, `maxPower`, `temperature`, `irradiation`, `dustLevel` is the
number 0 in the result. -/
theorem C4_counterexample :
    (calculateMetrics [] []).currentPower ≠ some 0 ∧
    (calculateMetrics [] []).maxPower ≠ some (JsNum.fin 0) ∧
    (calculateMetrics [] []).temperature ≠ some 0 ∧
    (calculateMetrics [] []).irradiation ≠ some 0 ∧
    (calculateMetrics [] []).dustLevel ≠ some 0 := by
  simp [calculateMetrics_nil, emptyObject]

/-- C4, amended: for the empty reading sequence and every prediction
sequence, `calculateMetrics` returns the empty object: none of
`currentPower`, `avgPower`, `maxPower`, `efficiency`, `temperature`,
`irradiation`, `dustLevel` is present, and nothing is divided. -/
theorem C4_empty_readings_give_empty_object (predictions : List Prediction) :
    calculateMetrics [] predictions = emptyObject ∧
    (calculateMetrics [] predictions).currentPower = none ∧
    (calculateMetrics [] predictions).avgPower = none ∧
    (calculateMetrics [] predictions).maxPower = none ∧
    (calculateMetrics [] predictions).efficiency = none ∧
    (calculateMetrics [] predictions).temperature = none ∧
    (calculateMetrics [] predictions).irradiation = none ∧
    (calculateMetrics [] predictions).dustLevel = none := by
  simp [calculateMetrics_nil, emptyObject]

/-- C5 as stated fails: with no reading, predictions `[{efficiency_score: 0.85}]`
do not give `efficiency = 85`; the result has no `efficiency` at all. -/
theorem C5_counterexample :
    (calculateMetrics [] [samplePrediction (85 / 100)]).efficiency ≠ some 85 ∧
    (calculateMetrics [] [samplePrediction (85 / 100)]).efficiency = none := by
  simp [calculateMetrics_nil, emptyObject]

/-- C5, amended: for every non-empty reading sequence the `efficiency`
metric is the mean of `efficiency_score` over all predictions times 100 when
there is a prediction, and 0 when there is none, whatever the readings are; for
the empty reading sequence the result has no `efficiency`. -/
theorem C5_efficiency_from_predictions (telemetryData : List TelemetryReading)
    (predictions : List Prediction) (hne : telemetryData ≠ []) :
    (calculateMetrics telemetryData predictions).efficiency =
      some (if predictions = [] then 0
        else (predictions.map fun p => p.efficiency_score).sum / (predictions.length : ℚ) * 100) ∧
    (calculateMetrics [] predictions).efficiency = none := by
  constructor
  · cases telemetryData with
    | nil => exact absurd rfl hne
    | cons first rest =>
      rw [calculateMetrics_cons]
      cases predictions with
      | nil => simp [avgEfficiency]
      | cons p ps => simp [avgEfficiency, sumEfficiency_eq_sum]
  · simp [calculateMetrics_nil, emptyObject]

/-- C5, worked example: with a reading present, predictions
`[{efficiency_score: 0.85}]` give `efficiency = 85`. -/
theorem C5_efficiency_from_predictions_witness :
    (calculateMetrics [sampleReading 1 5] [samplePrediction (85 / 100)]).efficiency =
      some 85 := by
  rw [(C5_efficiency_from_predictions [sampleReading 1 5] [samplePrediction (85 / 100)]
    (by simp)).1]
  norm_num [samplePrediction]

/-- C6 as stated fails on the doubles the code computes with: for three
readings of 0.1 (a double, and non-negative) `maxPower` is 0.1 and `avgPower`
is 0.10000000000000002, which is greater. -/
theorem C6_counterexample :
    isDouble tenthDouble = true ∧
    (∀ d ∈ [sampleReading 3 tenthDouble, sampleReading 2 tenthDouble,
      sampleReading 1 tenthDouble], 0 ≤ d.pv_power_kw) ∧
    (calculateMetrics [sampleReading 3 tenthDouble, sampleReading 2 tenthDouble,
      sampleReading 1 tenthDouble] []).maxPower = some (JsNum.fin tenthDouble) ∧
    avgPowerDouble [sampleReading 3 tenthDouble, sampleReading 2 tenthDouble,
      sampleReading 1 tenthDouble] =
      JsDouble.finite (7205759403792795 / 72057594037927936) ∧
    tenthDouble < 7205759403792795 / 72057594037927936 := by
  refine ⟨?_, ?_, ?_, avgPowerDouble_tenths, ?_⟩
  · simp [isDouble, roundDouble_tenth]
  · intro d hd
    simp only [List.mem_cons, List.mem_singleton, List.not_mem_nil, or_false] at hd
    rcases hd with rfl | rfl | rfl <;> norm_num [sampleReading, tenthDouble]
  · simp [calculateMetrics_cons, mathMax, maxStep, sampleReading]
  · norm_num [tenthDouble]

/-- C6, amended: for every non-empty reading sequence in which every
`pv_power_kw` is non-negative, `maxPower` and `currentPower` are numbers with
`0 ≤ currentPower ≤ maxPower`; the exact, unrounded mean of the readings lies
between 0 and `maxPower`; and the `avgPower` the code computes in doubles, every
addition and the division rounded, is a non-negative double or `+Infinity` (it
is not bounded by `maxPower`). -/
theorem C6_power_bounds_rounded (telemetryData : List TelemetryReading)
    (predictions : List Prediction) (hne : telemetryData ≠ [])
    (hpos : ∀ d ∈ telemetryData, 0 ≤ d.pv_power_kw) :
    (∃ m c : ℚ,
      (calculateMetrics telemetryData predictions).maxPower = some (JsNum.fin m) ∧
      (calculateMetrics telemetryData predictions).currentPower = some c ∧
      0 ≤ c ∧ c ≤ m ∧
      0 ≤ (telemetryData.map fun d => d.pv_power_kw).sum / (telemetryData.length : ℚ) ∧
      (telemetryData.map fun d => d.pv_power_kw).sum / (telemetryData.length : ℚ) ≤ m) ∧
    (avgPowerDouble telemetryData = JsDouble.posInfinity ∨
      ∃ b, avgPowerDouble telemetryData = JsDouble.finite b ∧ 0 ≤ b) := by
  refine ⟨?_, avgPowerDouble_nonneg telemetryData hpos⟩
  obtain ⟨m, hm, -, hall⟩ :=
    mathMax_spec (telemetryData.map fun d => d.pv_power_kw) (by simpa using hne)
  have hall2 : ∀ d ∈ telemetryData, d.pv_power_kw ≤ m := fun d hd =>
    hall _ (List.mem_map.mpr ⟨d, hd, rfl⟩)
  cases telemetryData with
  | nil => exact absurd rfl hne
  | cons first rest =>
    have hlen : (0 : ℚ) < (((first :: rest).length : ℕ) : ℚ) := by
      simp only [List.length_cons, Nat.cast_add, Nat.cast_one]
      positivity
    have hsum0 : 0 ≤ ((first :: rest).map fun d => d.pv_power_kw).sum := by
      apply List.sum_nonneg
      intro x hx
      obtain ⟨d, hd, rfl⟩ := List.mem_map.mp hx
      exact hpos d hd
    have hsumle : ((first :: rest).map fun d => d.pv_power_kw).sum ≤
        (((first :: rest).length : ℕ) : ℚ) * m := by
      have h := List.sum_le_card_nsmul ((first :: rest).map fun d => d.pv_power_kw) m
        (by
          intro x hx
          obtain ⟨d, hd, rfl⟩ := List.mem_map.mp hx
          exact hall2 d hd)
      simpa [nsmul_eq_mul] using h
    refine ⟨m, first.pv_power_kw, ?_, ?_, ?_, ?_, ?_, ?_⟩
    · rw [calculateMetrics_cons, hm]
    · rw [calculateMetrics_cons]
    · exact hpos first (List.mem_cons_self _ _)
    · exact hall2 first (List.mem_cons_self _ _)
    · exact div_nonneg hsum0 (le_of_lt hlen)
    · rw [div_le_iff₀ hlen, mul_comm]
      exact hsumle

/-- C6, worked example: for readings with `pv_power_kw` 5 and 3 the bounds
hold, and the rounded `avgPower` is non-negative. -/
theorem C6_power_bounds_rounded_witness :
    (∀ d ∈ [sampleReading 2 5, sampleReading 1 3], 0 ≤ d.pv_power_kw) ∧
    (∃ m c : ℚ,
      (calculateMetrics [sampleReading 2 5, sampleReading 1 3] []).maxPower =
        some (JsNum.fin m) ∧
      (calculateMetrics [sampleReading 2 5, sampleReading 1 3] []).currentPower = some c ∧
      0 ≤ c ∧ c ≤ m ∧
      0 ≤ ([sampleReading 2 5, sampleReading 1 3].map fun d => d.pv_power_kw).sum /
        (([sampleReading 2 5, sampleReading 1 3].length : ℕ) : ℚ) ∧
      ([sampleReading 2 5, sampleReading 1 3].map fun d => d.pv_power_kw).sum /
        (([sampleReading 2 5, sampleReading 1 3].length : ℕ) : ℚ) ≤ m) ∧
    (avgPowerDouble [sampleReading 2 5, sampleReading 1 3] = JsDouble.posInfinity ∨
      ∃ b, avgPowerDouble [sampleReading 2 5, sampleReading 1 3] = JsDouble.finite b ∧
        0 ≤ b) :=
  have hpos : ∀ d ∈ [sampleReading 2 5, sampleReading 1 3], 0 ≤ d.pv_power_kw := by
    intro d hd
    simp only [List.mem_cons, List.mem_singleton, List.not_mem_nil, or_false] at hd
    rcases hd with rfl | rfl <;> norm_num [sampleReading]
  ⟨hpos, C6_power_bounds_rounded [sampleReading 2 5, sampleReading 1 3] [] (by simp) hpos⟩

/-! ## Chart window builder -/

/-- C7: for every reading sequence of length `L`, `chartData` has exactly
`min L 20` elements; when `L ≤ 20` it is the projection of all the readings,
reversed, and when `L > 20` it is the projection of the first 20 readings only,
reversed, and has 20 elements. -/
theorem C7_chartData_length (toLocaleTimeString : Int → String)
    (telemetryData : List TelemetryReading) :
    (chartData toLocaleTimeString telemetryData).length = min telemetryData.length 20 ∧
    (telemetryData.length ≤ 20 →
      chartData toLocaleTimeString telemetryData =
        telemetryData.reverse.map (chartPoint toLocaleTimeString)) ∧
    (20 < telemetryData.length →
      chartData toLocaleTimeString telemetryData =
        (telemetryData.take 20).reverse.map (chartPoint toLocaleTimeString) ∧
      (chartData toLocaleTimeString telemetryData).length = 20) := by
  have hlen := chartData_length toLocaleTimeString telemetryData
  refine ⟨hlen, ?_, ?_⟩
  · intro h
    simp [chartData, chartWindow, List.take_of_length_le h]
  · intro h
    refine ⟨rfl, ?_⟩
    rw [hlen]
    omega

/-- C7, worked example: two readings give a chart of two points, both
readings projected in reverse order. -/
theorem C7_chartData_length_witness :
    (chartData sampleFormat [sampleReading 2 5, sampleReading 1 3]).length = 2 ∧
    chartData sampleFormat [sampleReading 2 5, sampleReading 1 3] =
      [chartPoint sampleFormat (sampleReading 1 3),
       chartPoint sampleFormat (sampleReading 2 5)] := by
  have h := C7_chartData_length sampleFormat [sampleReading 2 5, sampleReading 1 3]
  refine ⟨by simpa using h.1, ?_⟩
  rw [h.2.1 (by simp)]
  rfl

/-- C8: with `n = min L 20`, the `k`-th element of `chartData` (`k < n`) is
the projection of the reading at input index `n - 1 - k`; when the input
timestamps are non-increasing the timestamps of the charted readings, in chart
order, are non-decreasing; and the last chart element is the projection of the
first (most recent) reading. -/
theorem C8_chartData_reversed_window (toLocaleTimeString : Int → String)
    (telemetryData : List TelemetryReading) :
    (∀ k, k < min telemetryData.length 20 →
      ∃ d, telemetryData[min telemetryData.length 20 - 1 - k]? = some d ∧
        (chartData toLocaleTimeString telemetryData)[k]? =
          some (chartPoint toLocaleTimeString d)) ∧
    chartData toLocaleTimeString telemetryData =
      (chartWindow telemetryData).map (chartPoint toLocaleTimeString) ∧
    (List.Pairwise (fun a b => b ≤ a) (telemetryData.map fun d => d.timestamp) →
      List.Pairwise (fun a b => a ≤ b) ((chartWindow telemetryData).map fun d => d.timestamp)) ∧
    (chartData toLocaleTimeString telemetryData).getLast? =
      telemetryData.head?.map (chartPoint toLocaleTimeString) := by
  refine ⟨?_, rfl, ?_, ?_⟩
  · intro k hk
    exact chartData_getElem? toLocaleTimeString telemetryData k hk
  · intro h
    unfold chartWindow
    rw [List.map_reverse, List.pairwise_reverse, List.map_take]
    exact List.Pairwise.take h
  · cases telemetryData with
    | nil => rfl
    | cons first rest => simp [chartData, chartWindow]

/-- C8, worked example: readings at instants 2 then 1 are charted at
instants 1 then 2, and the last point is the most recent reading. -/
theorem C8_chartData_reversed_window_witness :
    (chartData sampleFormat [sampleReading 2 5, sampleReading 1 3])[0]? =
      some (chartPoint sampleFormat (sampleReading 1 3)) ∧
    List.Pairwise (fun a b => a ≤ b)
      ((chartWindow [sampleReading 2 5, sampleReading 1 3]).map fun d => d.timestamp) ∧
    (chartData sampleFormat [sampleReading 2 5, sampleReading 1 3]).getLast? =
      some (chartPoint sampleFormat (sampleReading 2 5)) := by
  have h := C8_chartData_reversed_window sampleFormat [sampleReading 2 5, sampleReading 1 3]
  refine ⟨?_, ?_, ?_⟩
  · obtain ⟨d, hd, hk⟩ := h.1 0 (by simp)
    simp at hd
    rw [hk, ← hd]
  · apply h.2.2.1
    simp [sampleReading]
  · rw [h.2.2.2]
    rfl

/-- C9: every element of `chartData`, at index `k`, comes from the reading at
input index `min L 20 - 1 - k`; its `irradiation` is that reading's
`irradiation_wm2` divided by 10, and its `power`, `temperature` and
`efficiency` are that reading's `pv_power_kw`, `module_temp_c` and
`inverter_efficiency` unchanged. -/
theorem C9_chartPoint_projection (toLocaleTimeString : Int → String)
    (telemetryData : List TelemetryReading) (k : Nat) (p : ChartPoint)
    (hp : (chartData toLocaleTimeString telemetryData)[k]? = some p) :
    ∃ d, telemetryData[min telemetryData.length 20 - 1 - k]? = some d ∧
      p.irradiation = d.irradiation_wm2 / 10 ∧
      p.power = d.pv_power_kw ∧
      p.temperature = d.module_temp_c ∧
      p.efficiency = d.inverter_efficiency := by
  have hk : k < min telemetryData.length 20 := by
    have h := (List.getElem?_eq_some.mp hp).1
    rwa [chartData_length toLocaleTimeString telemetryData] at h
  obtain ⟨d, hd, hpt⟩ := chartData_getElem? toLocaleTimeString telemetryData k hk
  refine ⟨d, hd, ?_⟩
  rw [hpt] at hp
  cases Option.some.inj hp
  exact ⟨rfl, rfl, rfl, rfl⟩

/-- C9, worked example: the only chart point of one reading with
`irradiation_wm2 = 800` has `irradiation = 80` and the reading's power,
temperature and efficiency. -/
theorem C9_chartPoint_projection_witness :
    (chartData sampleFormat [sampleReading 1 5])[0]? =
      some (chartPoint sampleFormat (sampleReading 1 5)) ∧
    (chartPoint sampleFormat (sampleReading 1 5)).irradiation = 80 ∧
    (chartPoint sampleFormat (sampleReading 1 5)).power = 5 ∧
    (chartPoint sampleFormat (sampleReading 1 5)).temperature = 25 ∧
    (chartPoint sampleFormat (sampleReading 1 5)).efficiency = 96 := by
  have hp : (chartData sampleFormat [sampleReading 1 5])[0]? =
      some (chartPoint sampleFormat (sampleReading 1 5)) := rfl
  obtain ⟨d, hd, h1, h2, h3, h4⟩ :=
    C9_chartPoint_projection sampleFormat [sampleReading 1 5] 0 _ hp
  simp at hd
  subst hd
  refine ⟨hp, ?_, ?_, ?_, ?_⟩
  · rw [h1]; norm_num [sampleReading]
  · rw [h2]; rfl
  · rw [h3]; rfl
  · rw [h4]; rfl

/-! ## Alert panel -/

/-- C10: for every alert sequence, the alert elements of the panel are the
input alerts mapped one by one in input order (same length, the `i`-th element
built from the `i`-th alert, carrying its id, severity and message), and the
count shown is the input length; for the empty sequence there is no alert
element and the count is 0. -/
theorem C10_alert_list_preserved (toLocaleString : Int → String) (alerts : List Alert) :
    (alertsPanel toLocaleString alerts).body.entries = alerts.map (alertView toLocaleString) ∧
    (alertsPanel toLocaleString alerts).body.entries.length = alerts.length ∧
    (∀ i : Nat, (alertsPanel toLocaleString alerts).body.entries[i]? =
      alerts[i]?.map (alertView toLocaleString)) ∧
    (∀ (i : Nat) (a : Alert), alerts[i]? = some a →
      ∃ v : AlertView, (alertsPanel toLocaleString alerts).body.entries[i]? = some v ∧
        v.key = a.id ∧ v.badge = a.severity ∧ v.message = a.message ∧
        v.severityClass = getProperty alertColors a.severity) ∧
    (alertsPanel toLocaleString alerts).count = alerts.length ∧
    (alertsPanel toLocaleString []).body.entries = [] ∧
    (alertsPanel toLocaleString []).count = 0 := by
  have hentries : (alertsPanel toLocaleString alerts).body.entries =
      alerts.map (alertView toLocaleString) := by
    cases alerts with
    | nil => rfl
    | cons a as => simp [alertsPanel, AlertsBody.entries]
  refine ⟨hentries, ?_, ?_, ?_, rfl, rfl, rfl⟩
  · rw [hentries, List.length_map]
  · intro i
    rw [hentries, List.getElem?_map]
  · intro i a ha
    refine ⟨alertView toLocaleString a, ?_, rfl, rfl, rfl, rfl⟩
    rw [hentries, List.getElem?_map, ha]
    rfl

/-- C10, worked example: two alerts give two elements in the same order and
a count of 2. -/
theorem C10_alert_list_preserved_witness :
    (alertsPanel sampleFormat [sampleAlert 1 "HIGH", sampleAlert 2 "LOW"]).body.entries =
      [alertView sampleFormat (sampleAlert 1 "HIGH"),
       alertView sampleFormat (sampleAlert 2 "LOW")] ∧
    (alertsPanel sampleFormat [sampleAlert 1 "HIGH", sampleAlert 2 "LOW"]).count = 2 := by
  have h := C10_alert_list_preserved sampleFormat [sampleAlert 1 "HIGH", sampleAlert 2 "LOW"]
  exact ⟨h.1, h.2.2.2.2.1⟩

/-- C11 as stated fails: an alert with the severity "CRITICAL", which is not
in the table, is rendered like any other; the lookup gives `undefined` and the
class name of the element silently becomes "p-3 rounded-md border undefined". -/
theorem C11_counterexample :
    (alertsPanel sampleFormat [sampleAlert 1 "CRITICAL"]).body.entries =
      [alertView sampleFormat (sampleAlert 1 "CRITICAL")] ∧
    (alertView sampleFormat (sampleAlert 1 "CRITICAL")).severityClass =
      PropertyValue.undefined ∧
    (alertView sampleFormat (sampleAlert 1 "CRITICAL")).className =
      some "p-3 rounded-md border undefined" := by
  refine ⟨rfl, ?_, ?_⟩
  · simp [alertView, sampleAlert, getProperty, alertColors, List.lookup, objectPrototypeKeys]
  · simp [AlertView.className, alertView, sampleAlert, getProperty, alertColors, List.lookup,
      objectPrototypeKeys, templateText]

/-- C11, amended: the lookup `alertColors[alert.severity]` gives the class
string of the table when the severity is HIGH, MEDIUM or LOW; for a severity
that is neither in the table nor a property name inherited from
`Object.prototype` it gives `undefined`, which the class name takes in as the
text "undefined"; no violation is signalled, the alert is rendered in every
case. -/
theorem C11_severity_lookup (toLocaleString : Int → String) (alert : Alert) :
    (alert.severity = "HIGH" →
      (alertView toLocaleString alert).severityClass =
        PropertyValue.text "text-red-600 bg-red-50 border-red-200") ∧
    (alert.severity = "MEDIUM" →
      (alertView toLocaleString alert).severityClass =
        PropertyValue.text "text-yellow-600 bg-yellow-50 border-yellow-200") ∧
    (alert.severity = "LOW" →
      (alertView toLocaleString alert).severityClass =
        PropertyValue.text "text-blue-600 bg-blue-50 border-blue-200") ∧
    (alert.severity ≠ "HIGH" → alert.severity ≠ "MEDIUM" → alert.severity ≠ "LOW" →
      alert.severity ∉ objectPrototypeKeys →
      (alertView toLocaleString alert).severityClass = PropertyValue.undefined ∧
      (alertView toLocaleString alert).className = some "p-3 rounded-md border undefined") ∧
    (alertsPanel toLocaleString [alert]).body.entries = [alertView toLocaleString alert] := by
  refine ⟨?_, ?_, ?_, ?_, rfl⟩
  · intro h
    simp [alertView, getProperty, alertColors, List.lookup, h]
  · intro h
    simp [alertView, getProperty, alertColors, List.lookup, h]
  · intro h
    simp [alertView, getProperty, alertColors, List.lookup, h]
  · intro h1 h2 h3 h4
    have b1 : (alert.severity == "HIGH") = false := beq_eq_false_iff_ne.mpr h1
    have b2 : (alert.severity == "MEDIUM") = false := beq_eq_false_iff_ne.mpr h2
    have b3 : (alert.severity == "LOW") = false := beq_eq_false_iff_ne.mpr h3
    have hc : (alertView toLocaleString alert).severityClass = PropertyValue.undefined := by
      simp only [alertView, getProperty, alertColors, List.lookup, b1, b2, b3]
      simp [h4]
    refine ⟨hc, ?_⟩
    simp only [AlertView.className, hc, templateText]
    simp [alertView]

/-- C11, worked example: a HIGH alert gets the red class of the table, and
a "CRITICAL" alert gets the class name ending in "undefined". -/
theorem C11_severity_lookup_witness :
    (alertView sampleFormat (sampleAlert 1 "HIGH")).severityClass =
      PropertyValue.text "text-red-600 bg-red-50 border-red-200" ∧
    (alertView sampleFormat (sampleAlert 2 "CRITICAL")).className =
      some "p-3 rounded-md border undefined" :=
  ⟨(C11_severity_lookup sampleFormat (sampleAlert 1 "HIGH")).1 rfl,
   ((C11_severity_lookup sampleFormat (sampleAlert 2 "CRITICAL")).2.2.2.1
      (by decide) (by decide) (by decide) (by decide)).2⟩

/-! ## Dashboard poller -/

theorem settleCycle_rejected (o : CycleOutcome) (s : Dashboard)
    (h : o.telemetry = FetchOutcome.rejected ∨ o.predictions = FetchOutcome.rejected ∨
      o.alerts = FetchOutcome.rejected) :
    settleCycle o s = Dashboard.afterTry { state := s, threw := true } := by
  obtain ⟨t, p, a⟩ := o
  cases t <;> cases p <;> cases a <;> simp_all [settleCycle]

theorem settleCycle_resolved (t : Response (List TelemetryReading))
    (p : Response (List Prediction)) (a : Response (List Alert)) (s : Dashboard) :
    settleCycle
      { telemetry := FetchOutcome.resolved t, predictions := FetchOutcome.resolved p,
        alerts := FetchOutcome.resolved a } s =
      Dashboard.afterTry (applyResponses t p a s) := by
  simp [settleCycle]

/-- C12 as stated fails: with all three responses 2xx, the predictions
response carrying a readable body, the predictions slot is not replaced when
the body of the telemetry response cannot be read. -/
theorem C12_counterexample :
    (fetchDashboardData
      { telemetry := FetchOutcome.resolved (brokenResponse (List TelemetryReading))
        predictions := FetchOutcome.resolved (okResponse [samplePrediction (85 / 100)])
        alerts := FetchOutcome.resolved (okResponse [sampleAlert 1 "HIGH"]) }
      Dashboard.initial).predictions = [] ∧
    (fetchDashboardData
      { telemetry := FetchOutcome.resolved (brokenResponse (List TelemetryReading))
        predictions := FetchOutcome.resolved (okResponse [samplePrediction (85 / 100)])
        alerts := FetchOutcome.resolved (okResponse [sampleAlert 1 "HIGH"]) }
      Dashboard.initial).predictions ≠ [samplePrediction (85 / 100)] := by
  have h : (fetchDashboardData
      { telemetry := FetchOutcome.resolved (brokenResponse (List TelemetryReading))
        predictions := FetchOutcome.resolved (okResponse [samplePrediction (85 / 100)])
        alerts := FetchOutcome.resolved (okResponse [sampleAlert 1 "HIGH"]) }
      Dashboard.initial).predictions = [] := by
    simp [fetchDashboardData, settleCycle, applyResponses, whenOk, brokenResponse,
      Dashboard.afterTry, Dashboard.beginFetch, Dashboard.initial]
  exact ⟨h, by rw [h]; simp⟩

/-- C12, amended: in a cycle whose three requests resolve to responses, a
non-2xx response leaves its slot at its previous value and its body is never
looked at, whatever the other two responses are; a 2xx response with a readable
body replaces its slot by exactly that body, provided the responses handled
before it (telemetry, then predictions, then alerts) did not throw, that is,
each was non-2xx or had a readable body. -/
theorem C12_slot_by_own_response (s : Dashboard) (t : Response (List TelemetryReading))
    (p : Response (List Prediction)) (a : Response (List Alert)) :
    (t.ok = false →
      (fetchDashboardData ⟨FetchOutcome.resolved t, FetchOutcome.resolved p,
        FetchOutcome.resolved a⟩ s).telemetryData = s.telemetryData) ∧
    (p.ok = false →
      (fetchDashboardData ⟨FetchOutcome.resolved t, FetchOutcome.resolved p,
        FetchOutcome.resolved a⟩ s).predictions = s.predictions) ∧
    (a.ok = false →
      (fetchDashboardData ⟨FetchOutcome.resolved t, FetchOutcome.resolved p,
        FetchOutcome.resolved a⟩ s).alerts = s.alerts) ∧
    (∀ b, t.ok = false →
      fetchDashboardData ⟨FetchOutcome.resolved { t with body := b }, FetchOutcome.resolved p,
        FetchOutcome.resolved a⟩ s =
      fetchDashboardData ⟨FetchOutcome.resolved t, FetchOutcome.resolved p,
        FetchOutcome.resolved a⟩ s) ∧
    (∀ b, p.ok = false →
      fetchDashboardData ⟨FetchOutcome.resolved t, FetchOutcome.resolved { p with body := b },
        FetchOutcome.resolved a⟩ s =
      fetchDashboardData ⟨FetchOutcome.resolved t, FetchOutcome.resolved p,
        FetchOutcome.resolved a⟩ s) ∧
    (∀ b, a.ok = false →
      fetchDashboardData ⟨FetchOutcome.resolved t, FetchOutcome.resolved p,
        FetchOutcome.resolved { a with body := b }⟩ s =
      fetchDashboardData ⟨FetchOutcome.resolved t, FetchOutcome.resolved p,
        FetchOutcome.resolved a⟩ s) ∧
    (∀ d, t.ok = true → t.body = Body.readable d →
      (fetchDashboardData ⟨FetchOutcome.resolved t, FetchOutcome.resolved p,
        FetchOutcome.resolved a⟩ s).telemetryData = d) ∧
    (∀ d, p.ok = true → p.body = Body.readable d → t.handled = true →
      (fetchDashboardData ⟨FetchOutcome.resolved t, FetchOutcome.resolved p,
        FetchOutcome.resolved a⟩ s).predictions = d) ∧
    (∀ d, a.ok = true → a.body = Body.readable d → t.handled = true → p.handled = true →
      (fetchDashboardData ⟨FetchOutcome.resolved t, FetchOutcome.resolved p,
        FetchOutcome.resolved a⟩ s).alerts = d) := by
  obtain ⟨tok, tb⟩ := t
  obtain ⟨pok, pb⟩ := p
  obtain ⟨aok, ab⟩ := a
  simp only [fetchDashboardData, settleCycle_resolved]
  refine ⟨?_, ?_, ?_, ?_, ?_, ?_, ?_, ?_, ?_⟩
  · rintro rfl
    cases pok <;> cases aok <;> cases pb <;> cases ab <;>
      simp [applyResponses, whenOk, Dashboard.afterTry, Dashboard.beginFetch]
  · rintro rfl
    cases tok <;> cases aok <;> cases tb <;> cases ab <;>
      simp [applyResponses, whenOk, Dashboard.afterTry, Dashboard.beginFetch]
  · rintro rfl
    cases tok <;> cases pok <;> cases tb <;> cases pb <;>
      simp [applyResponses, whenOk, Dashboard.afterTry, Dashboard.beginFetch]
  · rintro b rfl
    simp [applyResponses, whenOk]
  · rintro b rfl
    simp [applyResponses, whenOk]
  · rintro b rfl
    simp [applyResponses, whenOk]
  · rintro d rfl rfl
    cases pok <;> cases aok <;> cases pb <;> cases ab <;>
      simp [applyResponses, whenOk, Dashboard.afterTry, Dashboard.beginFetch]
  · rintro d rfl rfl ht
    cases tok <;> cases aok <;> cases tb <;> cases ab <;>
      simp_all [applyResponses, whenOk, Dashboard.afterTry, Dashboard.beginFetch,
        Response.handled]
  · rintro d rfl rfl ht hp
    cases tok <;> cases pok <;> cases tb <;> cases pb <;>
      simp_all [applyResponses, whenOk, Dashboard.afterTry, Dashboard.beginFetch,
        Response.handled]

/-- C12, worked example: with a status-500 telemetry response and 2xx
predictions and alerts responses, the telemetry slot keeps its value and the
other two slots take the bodies of their responses. -/
theorem C12_slot_by_own_response_witness :
    (fetchDashboardData
      ⟨FetchOutcome.resolved (errorResponse [sampleReading 1 5]),
       FetchOutcome.resolved (okResponse [samplePrediction (85 / 100)]),
       FetchOutcome.resolved (okResponse [sampleAlert 1 "HIGH"])⟩
      Dashboard.initial).telemetryData = [] ∧
    (fetchDashboardData
      ⟨FetchOutcome.resolved (errorResponse [sampleReading 1 5]),
       FetchOutcome.resolved (okResponse [samplePrediction (85 / 100)]),
       FetchOutcome.resolved (okResponse [sampleAlert 1 "HIGH"])⟩
      Dashboard.initial).predictions = [samplePrediction (85 / 100)] ∧
    (fetchDashboardData
      ⟨FetchOutcome.resolved (errorResponse [sampleReading 1 5]),
       FetchOutcome.resolved (okResponse [samplePrediction (85 / 100)]),
       FetchOutcome.resolved (okResponse [sampleAlert 1 "HIGH"])⟩
      Dashboard.initial).alerts = [sampleAlert 1 "HIGH"] :=
  have h := C12_slot_by_own_response Dashboard.initial (errorResponse [sampleReading 1 5])
    (okResponse [samplePrediction (85 / 100)]) (okResponse [sampleAlert 1 "HIGH"])
  ⟨h.1 rfl, h.2.2.2.2.2.2.2.1 _ rfl rfl rfl, h.2.2.2.2.2.2.2.2 _ rfl rfl rfl rfl⟩

/-- C13 as stated fails: when the predictions request is rejected and the
telemetry and alerts requests get 2xx responses with readable bodies, neither
the telemetry slot nor the alerts slot is updated. -/
theorem C13_counterexample :
    (fetchDashboardData
      ⟨FetchOutcome.resolved (okResponse [sampleReading 1 5]),
       FetchOutcome.rejected,
       FetchOutcome.resolved (okResponse [sampleAlert 1 "HIGH"])⟩
      Dashboard.initial).telemetryData = [] ∧
    (fetchDashboardData
      ⟨FetchOutcome.resolved (okResponse [sampleReading 1 5]),
       FetchOutcome.rejected,
       FetchOutcome.resolved (okResponse [sampleAlert 1 "HIGH"])⟩
      Dashboard.initial).alerts = [] ∧
    (fetchDashboardData
      ⟨FetchOutcome.resolved (okResponse [sampleReading 1 5]),
       FetchOutcome.rejected,
       FetchOutcome.resolved (okResponse [sampleAlert 1 "HIGH"])⟩
      Dashboard.initial).telemetryData ≠ [sampleReading 1 5] ∧
    (fetchDashboardData
      ⟨FetchOutcome.resolved (okResponse [sampleReading 1 5]),
       FetchOutcome.rejected,
       FetchOutcome.resolved (okResponse [sampleAlert 1 "HIGH"])⟩
      Dashboard.initial).alerts ≠ [sampleAlert 1 "HIGH"] := by
  simp [fetchDashboardData, settleCycle, Dashboard.afterTry, Dashboard.beginFetch,
    Dashboard.initial]

/-- C13, amended: when one endpoint answers with a non-2xx response and the
other two with 2xx responses whose bodies can be read, the other two slots are
updated to those bodies in that cycle (for each of the three endpoints); when a
request is rejected, no slot is updated in that cycle. -/
theorem C13_failure_isolation (s : Dashboard) :
    (∀ (p : Response (List Prediction)) (dT : List TelemetryReading) (dA : List Alert),
      p.ok = false →
      (fetchDashboardData ⟨FetchOutcome.resolved (okResponse dT), FetchOutcome.resolved p,
        FetchOutcome.resolved (okResponse dA)⟩ s).telemetryData = dT ∧
      (fetchDashboardData ⟨FetchOutcome.resolved (okResponse dT), FetchOutcome.resolved p,
        FetchOutcome.resolved (okResponse dA)⟩ s).alerts = dA) ∧
    (∀ (t : Response (List TelemetryReading)) (dP : List Prediction) (dA : List Alert),
      t.ok = false →
      (fetchDashboardData ⟨FetchOutcome.resolved t, FetchOutcome.resolved (okResponse dP),
        FetchOutcome.resolved (okResponse dA)⟩ s).predictions = dP ∧
      (fetchDashboardData ⟨FetchOutcome.resolved t, FetchOutcome.resolved (okResponse dP),
        FetchOutcome.resolved (okResponse dA)⟩ s).alerts = dA) ∧
    (∀ (a : Response (List Alert)) (dT : List TelemetryReading) (dP : List Prediction),
      a.ok = false →
      (fetchDashboardData ⟨FetchOutcome.resolved (okResponse dT),
        FetchOutcome.resolved (okResponse dP), FetchOutcome.resolved a⟩ s).telemetryData = dT ∧
      (fetchDashboardData ⟨FetchOutcome.resolved (okResponse dT),
        FetchOutcome.resolved (okResponse dP), FetchOutcome.resolved a⟩ s).predictions = dP) ∧
    (∀ o : CycleOutcome,
      o.telemetry = FetchOutcome.rejected ∨ o.predictions = FetchOutcome.rejected ∨
        o.alerts = FetchOutcome.rejected →
      (fetchDashboardData o s).telemetryData = s.telemetryData ∧
      (fetchDashboardData o s).predictions = s.predictions ∧
      (fetchDashboardData o s).alerts = s.alerts) := by
  refine ⟨?_, ?_, ?_, ?_⟩
  · rintro ⟨pok, pb⟩ dT dA hp
    simp only at hp
    subst hp
    simp [fetchDashboardData, settleCycle_resolved, applyResponses, whenOk, okResponse,
      Dashboard.afterTry]
  · rintro ⟨tok, tb⟩ dP dA ht
    simp only at ht
    subst ht
    simp [fetchDashboardData, settleCycle_resolved, applyResponses, whenOk, okResponse,
      Dashboard.afterTry]
  · rintro ⟨aok, ab⟩ dT dP ha
    simp only at ha
    subst ha
    simp [fetchDashboardData, settleCycle_resolved, applyResponses, whenOk, okResponse,
      Dashboard.afterTry]
  · intro o ho
    rw [fetchDashboardData, settleCycle_rejected o _ ho]
    simp [Dashboard.afterTry, Dashboard.beginFetch]

/-- C13, worked example: a status-500 predictions response does not keep the
telemetry and alerts slots from taking the bodies of their 2xx responses. -/
theorem C13_failure_isolation_witness :
    (fetchDashboardData
      ⟨FetchOutcome.resolved (okResponse [sampleReading 1 5]),
       FetchOutcome.resolved (errorResponse []),
       FetchOutcome.resolved (okResponse [sampleAlert 1 "HIGH"])⟩
      Dashboard.initial).telemetryData = [sampleReading 1 5] ∧
    (fetchDashboardData
      ⟨FetchOutcome.resolved (okResponse [sampleReading 1 5]),
       FetchOutcome.resolved (errorResponse []),
       FetchOutcome.resolved (okResponse [sampleAlert 1 "HIGH"])⟩
      Dashboard.initial).alerts = [sampleAlert 1 "HIGH"] :=
  (C13_failure_isolation Dashboard.initial).1 (errorResponse []) [sampleReading 1 5]
    [sampleAlert 1 "HIGH"] rfl

/-! ## The dashboard over time -/

theorem afterTry_fields (c : Completion Dashboard) :
    (Dashboard.afterTry c).loading = false ∧
    (Dashboard.afterTry c).telemetryData = c.state.telemetryData ∧
    (Dashboard.afterTry c).predictions = c.state.predictions ∧
    (Dashboard.afterTry c).alerts = c.state.alerts ∧
    (Dashboard.afterTry c).selectedInstallation = c.state.selectedInstallation := by
  cases h : c.threw <;> simp [Dashboard.afterTry, h]

/-- Handling the alerts response writes no slot and no selection. -/
theorem proceedAlerts_fields (a : Response (List Alert)) (s : Dashboard) :
    (proceedAlerts a s).2.telemetryData = s.telemetryData ∧
    (proceedAlerts a s).2.predictions = s.predictions ∧
    (proceedAlerts a s).2.alerts = s.alerts ∧
    (proceedAlerts a s).2.selectedInstallation = s.selectedInstallation := by
  cases h : a.ok <;> simp [proceedAlerts, h, afterTry_fields]

/-- Handling the predictions and alerts responses up to the next `await`
writes no slot and no selection. -/
theorem proceedPredictions_fields (p : Response (List Prediction))
    (a : Response (List Alert)) (s : Dashboard) :
    (proceedPredictions p a s).2.telemetryData = s.telemetryData ∧
    (proceedPredictions p a s).2.predictions = s.predictions ∧
    (proceedPredictions p a s).2.alerts = s.alerts ∧
    (proceedPredictions p a s).2.selectedInstallation = s.selectedInstallation := by
  cases h : p.ok
  · simpa [proceedPredictions, h] using proceedAlerts_fields a s
  · simp [proceedPredictions, h]

theorem staleRun_state :
    Page.mount.run staleRun =
      { dash :=
          { selectedInstallation := "INST_002"
            telemetryData := [sampleReading 1 5]
            predictions := []
            alerts := []
            loading := true
            realTimeData := some (sampleReading 1 5)
            host :=
              { requests :=
                  ["/api/installations", "/api/latest/INST_001", "/api/predictions/INST_001",
                   "/api/alerts/INST_001", "/api/latest/INST_001", "/api/predictions/INST_001",
                   "/api/alerts/INST_001", "/api/installations", "/api/latest/INST_002",
                   "/api/predictions/INST_002", "/api/alerts/INST_002"]
                console := []
                notices := []
                documents := [] } }
        installations := sampleInstallations
        installationRequests := 1
        calls :=
          [Call.cycle
             { id := "INST_001"
               telemetry := some (FetchOutcome.resolved (okResponse [sampleReading 1 5]))
               predictions := some (FetchOutcome.resolved (errorResponse []))
               alerts := some (FetchOutcome.resolved (errorResponse []))
               phase := CyclePhase.done },
           Call.cycle (Cycle.start "INST_001"),
           Call.cycle (Cycle.start "INST_002")] } := by
  simp [Page.run, staleRun, Page.step, Page.mount, Page.runEffect, Dashboard.initial,
    Dashboard.beginFetch, Host.empty, fetchInstallationsDone, okResponse, errorResponse,
    Call.resume, Cycle.start, Cycle.afterSettle, Cycle.afterBody, isRejected, response?,
    proceedTelemetry, proceedPredictions, proceedAlerts, Dashboard.afterTry, Dashboard.spinner,
    sampleInstallations]

/-- C14 as stated fails: the registry has answered, the first cycle has
brought data, the interval has started a cycle for INST_001 and the operator
has then selected INST_002.  When the responses of the cycle issued for INST_001
arrive, INST_002 is active, and all three slots are overwritten with them. -/
theorem C14_counterexample :
    (Page.mount.run staleRun).dash.selectedInstallation = "INST_002" ∧
    (Page.mount.run staleRun).calls[1]? = some (Call.cycle (Cycle.start "INST_001")) ∧
    (Page.mount.run staleRun).dash.telemetryData = [sampleReading 1 5] ∧
    (Page.mount.run staleRun).dash.predictions = [] ∧
    (Page.mount.run staleRun).dash.alerts = [] ∧
    ((Page.mount.run staleRun).run staleArrival).dash.selectedInstallation = "INST_002" ∧
    ((Page.mount.run staleRun).run staleArrival).dash.telemetryData = [sampleReading 2 3] ∧
    ((Page.mount.run staleRun).run staleArrival).dash.predictions =
      [samplePrediction (85 / 100)] ∧
    ((Page.mount.run staleRun).run staleArrival).dash.alerts = [sampleAlert 1 "HIGH"] := by
  rw [staleRun_state]
  simp [Page.run, staleArrival, Page.step, okResponse, Call.resume, Cycle.start,
    Cycle.afterSettle, Cycle.afterBody, isRejected, response?, proceedTelemetry,
    proceedPredictions, proceedAlerts, Dashboard.afterTry]

/-- C14, amended: when a call of `fetchDashboardData` resumes after the body
of a 2xx response has been read, it writes that body into its slot of the
current state and leaves the selection as it is, whatever installation id the
call was issued for and whatever id is active: the code compares no id.  This
holds for each of the three slots. -/
theorem C14_commit_ignores_id (m : Page) (k : Nat) (c : Cycle)
    (hk : m.calls[k]? = some (Call.cycle c)) :
    (∀ t p a d, c.phase = CyclePhase.readingTelemetry t p a → t.body = Body.readable d →
      (m.step (Action.resume k Resume.body)).dash.telemetryData = d ∧
      (m.step (Action.resume k Resume.body)).dash.selectedInstallation =
        m.dash.selectedInstallation) ∧
    (∀ p a d, c.phase = CyclePhase.readingPredictions p a → p.body = Body.readable d →
      (m.step (Action.resume k Resume.body)).dash.predictions = d ∧
      (m.step (Action.resume k Resume.body)).dash.selectedInstallation =
        m.dash.selectedInstallation) ∧
    (∀ a d, c.phase = CyclePhase.readingAlerts a → a.body = Body.readable d →
      (m.step (Action.resume k Resume.body)).dash.alerts = d ∧
      (m.step (Action.resume k Resume.body)).dash.selectedInstallation =
        m.dash.selectedInstallation) := by
  have hstep : (m.step (Action.resume k Resume.body)).dash = (Cycle.afterBody c m.dash).2 := by
    simp [Page.step, hk, Call.resume]
  rw [hstep]
  refine ⟨?_, ?_, ?_⟩
  · intro t p a d hph hb
    have h := proceedPredictions_fields p a
      { m.dash with telemetryData := d, realTimeData := d[0]? }
    simp only [Cycle.afterBody, hph, hb]
    exact ⟨h.1, h.2.2.2⟩
  · intro p a d hph hb
    have h := proceedAlerts_fields a { m.dash with predictions := d }
    simp only [Cycle.afterBody, hph, hb]
    exact ⟨h.2.1, h.2.2.2⟩
  · intro a d hph hb
    have h := afterTry_fields { state := { m.dash with alerts := d }, threw := false }
    simp only [Cycle.afterBody, hph, hb]
    exact ⟨h.2.2.2.1, h.2.2.2.2⟩

/-- C14, worked example: in the run of the counterexample, the call issued
for INST_001 resumes after its telemetry body has been read while INST_002 is
active, and the telemetry slot takes that body. -/
theorem C14_commit_ignores_id_witness :
    ((Page.mount.run staleRun).run (staleArrival.take 3)).calls[1]? =
      some (Call.cycle
        { id := "INST_001"
          telemetry := some (FetchOutcome.resolved (okResponse [sampleReading 2 3]))
          predictions :=
            some (FetchOutcome.resolved (okResponse [samplePrediction (85 / 100)]))
          alerts := some (FetchOutcome.resolved (okResponse [sampleAlert 1 "HIGH"]))
          phase := CyclePhase.readingTelemetry (okResponse [sampleReading 2 3])
            (okResponse [samplePrediction (85 / 100)]) (okResponse [sampleAlert 1 "HIGH"]) }) ∧
    ((Page.mount.run staleRun).run (staleArrival.take 3)).dash.selectedInstallation =
      "INST_002" ∧
    (((Page.mount.run staleRun).run (staleArrival.take 3)).step
      (Action.resume 1 Resume.body)).dash.telemetryData = [sampleReading 2 3] ∧
    (((Page.mount.run staleRun).run (staleArrival.take 3)).step
      (Action.resume 1 Resume.body)).dash.selectedInstallation = "INST_002" :=
  have hk : ((Page.mount.run staleRun).run (staleArrival.take 3)).calls[1]? =
      some (Call.cycle
        { id := "INST_001"
          telemetry := some (FetchOutcome.resolved (okResponse [sampleReading 2 3]))
          predictions :=
            some (FetchOutcome.resolved (okResponse [samplePrediction (85 / 100)]))
          alerts := some (FetchOutcome.resolved (okResponse [sampleAlert 1 "HIGH"]))
          phase := CyclePhase.readingTelemetry (okResponse [sampleReading 2 3])
            (okResponse [samplePrediction (85 / 100)]) (okResponse [sampleAlert 1 "HIGH"]) }) := by
    rw [staleRun_state]
    simp [Page.run, staleArrival, Page.step, okResponse, Call.resume, Cycle.start,
      Cycle.afterSettle, isRejected, response?, proceedTelemetry]
  have hsel : ((Page.mount.run staleRun).run (staleArrival.take 3)).dash.selectedInstallation =
      "INST_002" := by
    rw [staleRun_state]
    simp [Page.run, staleArrival, Page.step, okResponse, Call.resume, Cycle.start,
      Cycle.afterSettle, isRejected, response?, proceedTelemetry]
  have h := (C14_commit_ignores_id _ 1 _ hk).1 _ _ _ [sampleReading 2 3] rfl rfl
  ⟨hk, hsel, h.1, h.2.trans hsel⟩

/-! ## Notification poller -/

/-- C15: for every prior digest and every failing outcome of the poll (the
request is rejected, the response is non-2xx, or the body of the response
cannot be read), `fetchNotifications` completes without throwing and the digest
is what it was before the poll. -/
theorem C15_digest_kept_on_failure (s : App) (o : FetchOutcome (List Alert))
    (hfail : o = FetchOutcome.rejected ∨
      ∃ r, o = FetchOutcome.resolved r ∧ (r.ok = false ∨ r.body = Body.unreadable)) :
    (fetchNotifications o s).threw = false ∧
    (fetchNotifications o s).state.notifications = s.notifications := by
  rcases hfail with rfl | ⟨⟨ok, body⟩, rfl, hr⟩
  · simp [fetchNotifications, fetchNotificationsTry]
  · simp only at hr
    rcases hr with rfl | rfl
    · simp [fetchNotifications, fetchNotificationsTry, whenOk]
    · cases ok <;> simp [fetchNotifications, fetchNotificationsTry, whenOk]

/-- C15, worked example: a digest of one alert survives a rejected request,
a status-500 response and a 2xx response with an unreadable body. -/
theorem C15_digest_kept_on_failure_witness :
    (fetchNotifications FetchOutcome.rejected
      { notifications := [sampleAlert 1 "HIGH"], host := Host.empty }).state.notifications =
      [sampleAlert 1 "HIGH"] ∧
    (fetchNotifications (FetchOutcome.resolved (errorResponse [sampleAlert 2 "LOW"]))
      { notifications := [sampleAlert 1 "HIGH"], host := Host.empty }).state.notifications =
      [sampleAlert 1 "HIGH"] ∧
    (fetchNotifications (FetchOutcome.resolved (brokenResponse (List Alert)))
      { notifications := [sampleAlert 1 "HIGH"], host := Host.empty }).threw = false :=
  ⟨(C15_digest_kept_on_failure _ FetchOutcome.rejected (Or.inl rfl)).2,
   (C15_digest_kept_on_failure _ (FetchOutcome.resolved (errorResponse [sampleAlert 2 "LOW"]))
      (Or.inr ⟨_, rfl, Or.inl rfl⟩)).2,
   (C15_digest_kept_on_failure _ (FetchOutcome.resolved (brokenResponse (List Alert)))
      (Or.inr ⟨_, rfl, Or.inr rfl⟩)).1⟩

/-- C16: for every alert sequence that comes as the readable body of a 2xx
response, the digest after `fetchNotifications` is exactly the first
`min 3 length` alerts of that sequence, in the order returned, whatever the
digest was before; it never holds more than 3 entries. -/
theorem C16_digest_is_first_three (s : App) (r : Response (List Alert)) (alerts : List Alert)
    (hok : r.ok = true) (hbody : r.body = Body.readable alerts) :
    (fetchNotifications (FetchOutcome.resolved r) s).state.notifications = alerts.take 3 ∧
    (fetchNotifications (FetchOutcome.resolved r) s).state.notifications.length =
      min 3 alerts.length ∧
    (fetchNotifications (FetchOutcome.resolved r) s).state.notifications.length ≤ 3 ∧
    (∀ i : Nat, i < min 3 alerts.length →
      (fetchNotifications (FetchOutcome.resolved r) s).state.notifications[i]? = alerts[i]?) ∧
    (fetchNotifications (FetchOutcome.resolved r) s).threw = false := by
  obtain ⟨ok, body⟩ := r
  simp only at hok hbody
  subst hok hbody
  have h : (fetchNotifications (FetchOutcome.resolved ⟨true, Body.readable alerts⟩)
      s).state.notifications = alerts.take 3 := by
    simp [fetchNotifications, fetchNotificationsTry, whenOk]
  refine ⟨h, ?_, ?_, ?_, ?_⟩
  · rw [h, List.length_take]
  · rw [h, List.length_take]
    exact Nat.min_le_left _ _
  · intro i hi
    rw [h]
    exact List.getElem?_take_of_lt (lt_of_lt_of_le hi (Nat.min_le_left _ _))
  · simp [fetchNotifications, fetchNotificationsTry, whenOk]

/-- C16, worked example: four alerts returned replace a digest of one alert
by the first three of the four. -/
theorem C16_digest_is_first_three_witness :
    (fetchNotifications
      (FetchOutcome.resolved (okResponse
        [sampleAlert 1 "HIGH", sampleAlert 2 "LOW", sampleAlert 3 "LOW", sampleAlert 4 "HIGH"]))
      { notifications := [sampleAlert 9 "LOW"], host := Host.empty }).state.notifications =
      [sampleAlert 1 "HIGH", sampleAlert 2 "LOW", sampleAlert 3 "LOW"] :=
  (C16_digest_is_first_three _ (okResponse
    [sampleAlert 1 "HIGH", sampleAlert 2 "LOW", sampleAlert 3 "LOW", sampleAlert 4 "HIGH"])
    _ rfl rfl).1

/-! ## Report request -/

/-- C17, the code at the failing inputs: on a status-500 response
`generateReport` of the Reports page shows no notice, although on a rejected
request it shows "Failed to generate report. Please try again."; `generateReport`
of the Dashboard page shows no notice on a rejected request nor on a status-500
response.  In all four cases one request is issued and no document is written. -/
theorem C17_report_failure_notices :
    (Reports.generateReport "now" true (FetchOutcome.resolved (errorResponse ⟨"text"⟩))
      Reports.initial).state.host.notices = [] ∧
    (Reports.generateReport "now" true FetchOutcome.rejected
      Reports.initial).state.host.notices = ["Failed to generate report. Please try again."] ∧
    (Dashboard.generateReport true FetchOutcome.rejected
      Dashboard.initial).state.host.notices = [] ∧
    (Dashboard.generateReport true (FetchOutcome.resolved (errorResponse ⟨"text"⟩))
      Dashboard.initial).state.host.notices = [] ∧
    (Reports.generateReport "now" true (FetchOutcome.resolved (errorResponse ⟨"text"⟩))
      Reports.initial).state.host.requests = ["/api/report/INST_001"] ∧
    (Reports.generateReport "now" true FetchOutcome.rejected
      Reports.initial).state.host.requests = ["/api/report/INST_001"] ∧
    (Dashboard.generateReport true FetchOutcome.rejected
      Dashboard.initial).state.host.requests = ["/api/report/INST_001"] ∧
    (Dashboard.generateReport true (FetchOutcome.resolved (errorResponse ⟨"text"⟩))
      Dashboard.initial).state.host.requests = ["/api/report/INST_001"] ∧
    (Reports.generateReport "now" true (FetchOutcome.resolved (errorResponse ⟨"text"⟩))
      Reports.initial).state.host.documents = [] ∧
    (Reports.generateReport "now" true FetchOutcome.rejected
      Reports.initial).state.host.documents = [] ∧
    (Dashboard.generateReport true FetchOutcome.rejected
      Dashboard.initial).state.host.documents = [] ∧
    (Dashboard.generateReport true (FetchOutcome.resolved (errorResponse ⟨"text"⟩))
      Dashboard.initial).state.host.documents = [] := by
  simp [Reports.generateReport, Reports.generateReportTry, Reports.initial,
    Dashboard.generateReport, Dashboard.generateReportTry, Dashboard.initial, Host.empty,
    errorResponse]

/-! ## Loading flag -/

theorem cycleThrows_loading (s : Dashboard) :
    (cycleThrows s).1 = CyclePhase.done ∧ (cycleThrows s).2.loading = false := by
  simp [cycleThrows, Dashboard.afterTry]

/-- Handling the alerts response either ends the call, with the flag
lowered, or suspends it, with the state untouched. -/
theorem proceedAlerts_loading (a : Response (List Alert)) (s : Dashboard) :
    ((proceedAlerts a s).1 = CyclePhase.done → (proceedAlerts a s).2.loading = false) ∧
    ((proceedAlerts a s).1 ≠ CyclePhase.done → (proceedAlerts a s).2.loading = s.loading) := by
  cases h : a.ok <;> simp [proceedAlerts, h, Dashboard.afterTry]

theorem proceedPredictions_loading (p : Response (List Prediction))
    (a : Response (List Alert)) (s : Dashboard) :
    ((proceedPredictions p a s).1 = CyclePhase.done →
      (proceedPredictions p a s).2.loading = false) ∧
    ((proceedPredictions p a s).1 ≠ CyclePhase.done →
      (proceedPredictions p a s).2.loading = s.loading) := by
  cases h : p.ok
  · simpa [proceedPredictions, h] using proceedAlerts_loading a s
  · simp [proceedPredictions, h]

theorem proceedTelemetry_loading (t : Response (List TelemetryReading))
    (p : Response (List Prediction)) (a : Response (List Alert)) (s : Dashboard) :
    ((proceedTelemetry t p a s).1 = CyclePhase.done →
      (proceedTelemetry t p a s).2.loading = false) ∧
    ((proceedTelemetry t p a s).1 ≠ CyclePhase.done →
      (proceedTelemetry t p a s).2.loading = s.loading) := by
  cases h : t.ok
  · simpa [proceedTelemetry, h] using proceedPredictions_loading p a s
  · simp [proceedTelemetry, h]

/-- A call that has returned is not resumed by a settling request. -/
theorem afterSettle_done (c : Cycle) (s : Dashboard) (h : c.phase = CyclePhase.done) :
    Cycle.afterSettle c s = (c, s) := by
  simp [Cycle.afterSettle, h]

/-- When a request settles, the call ends with the flag lowered or goes on
with the flag untouched. -/
theorem afterSettle_loading (c : Cycle) (s : Dashboard) :
    ((Cycle.afterSettle c s).1.phase = CyclePhase.done → c.phase ≠ CyclePhase.done →
      (Cycle.afterSettle c s).2.loading = false) ∧
    ((Cycle.afterSettle c s).1.phase ≠ CyclePhase.done →
      (Cycle.afterSettle c s).2.loading = s.loading) := by
  unfold Cycle.afterSettle
  cases hph : c.phase with
  | awaitingAll =>
    simp only
    by_cases hrej : (isRejected c.telemetry || isRejected c.predictions ||
        isRejected c.alerts) = true
    · simp [hrej, cycleThrows_loading]
    · simp only [hrej, Bool.false_eq_true, if_false]
      cases ht : response? c.telemetry with
      | none => simp [hph]
      | some t =>
        cases hp : response? c.predictions with
        | none => simp [hph]
        | some p =>
          cases ha : response? c.alerts with
          | none => simp [hph]
          | some a =>
            have h := proceedTelemetry_loading t p a s
            exact ⟨fun hd _ => h.1 hd, fun hnd => h.2 hnd⟩
  | readingTelemetry t p a => simp [hph]
  | readingPredictions p a => simp [hph]
  | readingAlerts a => simp [hph]
  | done => simp [hph]

/-- When a body has been read, the call ends with the flag lowered or goes
on with the flag untouched. -/
theorem afterBody_loading (c : Cycle) (s : Dashboard) :
    ((Cycle.afterBody c s).1.phase = CyclePhase.done → c.phase ≠ CyclePhase.done →
      (Cycle.afterBody c s).2.loading = false) ∧
    ((Cycle.afterBody c s).1.phase ≠ CyclePhase.done →
      (Cycle.afterBody c s).2.loading = s.loading) := by
  unfold Cycle.afterBody
  cases hph : c.phase with
  | awaitingAll => simp [hph]
  | readingTelemetry t p a =>
    cases hb : t.body with
    | unreadable => simp [hb, cycleThrows_loading]
    | readable d =>
      have h := proceedPredictions_loading p a
        { s with telemetryData := d, realTimeData := d[0]? }
      simp only [hb]
      exact ⟨fun hd _ => h.1 hd, fun hnd => h.2 hnd⟩
  | readingPredictions p a =>
    cases hb : p.body with
    | unreadable => simp [hb, cycleThrows_loading]
    | readable d =>
      have h := proceedAlerts_loading a { s with predictions := d }
      simp only [hb]
      exact ⟨fun hd _ => h.1 hd, fun hnd => h.2 hnd⟩
  | readingAlerts a =>
    cases hb : a.body with
    | unreadable => simp [hb, cycleThrows_loading]
    | readable d => simp [hb, Dashboard.afterTry]
  | done => simp [hph]

theorem afterBody_done (c : Cycle) (s : Dashboard) (h : c.phase = CyclePhase.done) :
    Cycle.afterBody c s = (c, s) := by
  simp [Cycle.afterBody, h]

/-- One resumption of a call of `fetchDashboardData`: it stays such a call;
if it had returned, nothing is written; if it returns now, the flag is lowered;
if it goes on, the flag is untouched. -/
theorem resume_cycle (c : Cycle) (r : Resume) (s : Dashboard) :
    ∃ c2, (Call.resume (Call.cycle c) r s).1 = Call.cycle c2 ∧
      (c.phase = CyclePhase.done →
        c2.phase = CyclePhase.done ∧ (Call.resume (Call.cycle c) r s).2 = s) ∧
      (c.phase ≠ CyclePhase.done → c2.phase = CyclePhase.done →
        (Call.resume (Call.cycle c) r s).2.loading = false) ∧
      (c2.phase ≠ CyclePhase.done →
        (Call.resume (Call.cycle c) r s).2.loading = s.loading) := by
  cases r with
  | telemetry o =>
    cases ht : c.telemetry with
    | some x => exact ⟨c, by simp [Call.resume, ht], by simp [Call.resume, ht],
        fun h1 h2 => absurd h2 h1, by simp [Call.resume, ht]⟩
    | none =>
      have hl := afterSettle_loading { c with telemetry := some o } s
      refine ⟨(Cycle.afterSettle { c with telemetry := some o } s).1,
        by simp [Call.resume, ht], ?_, ?_, ?_⟩
      · intro hd
        have he := afterSettle_done { c with telemetry := some o } s hd
        simp only [Call.resume, ht, he]
        exact ⟨hd, trivial⟩
      · intro hnd hd
        simpa [Call.resume, ht] using hl.1 hd hnd
      · intro hnd
        simpa [Call.resume, ht] using hl.2 hnd
  | predictions o =>
    cases ht : c.predictions with
    | some x => exact ⟨c, by simp [Call.resume, ht], by simp [Call.resume, ht],
        fun h1 h2 => absurd h2 h1, by simp [Call.resume, ht]⟩
    | none =>
      have hl := afterSettle_loading { c with predictions := some o } s
      refine ⟨(Cycle.afterSettle { c with predictions := some o } s).1,
        by simp [Call.resume, ht], ?_, ?_, ?_⟩
      · intro hd
        have he := afterSettle_done { c with predictions := some o } s hd
        simp only [Call.resume, ht, he]
        exact ⟨hd, trivial⟩
      · intro hnd hd
        simpa [Call.resume, ht] using hl.1 hd hnd
      · intro hnd
        simpa [Call.resume, ht] using hl.2 hnd
  | alerts o =>
    cases ht : c.alerts with
    | some x => exact ⟨c, by simp [Call.resume, ht], by simp [Call.resume, ht],
        fun h1 h2 => absurd h2 h1, by simp [Call.resume, ht]⟩
    | none =>
      have hl := afterSettle_loading { c with alerts := some o } s
      refine ⟨(Cycle.afterSettle { c with alerts := some o } s).1,
        by simp [Call.resume, ht], ?_, ?_, ?_⟩
      · intro hd
        have he := afterSettle_done { c with alerts := some o } s hd
        simp only [Call.resume, ht, he]
        exact ⟨hd, trivial⟩
      · intro hnd hd
        simpa [Call.resume, ht] using hl.1 hd hnd
      · intro hnd
        simpa [Call.resume, ht] using hl.2 hnd
  | body =>
    have hl := afterBody_loading c s
    refine ⟨(Cycle.afterBody c s).1, by simp [Call.resume], ?_, ?_, ?_⟩
    · intro hd
      simp [Call.resume, afterBody_done c s hd, hd]
    · intro hnd hd
      simpa [Call.resume] using hl.1 hd hnd
    · intro hnd
      simpa [Call.resume] using hl.2 hnd
  | report o =>
    exact ⟨c, by simp [Call.resume], by simp [Call.resume], fun h1 h2 => absurd h2 h1,
      by simp [Call.resume]⟩
  | reportBody w =>
    exact ⟨c, by simp [Call.resume], by simp [Call.resume], fun h1 h2 => absurd h2 h1,
      by simp [Call.resume]⟩

/-- A resumption of the call at position `k` replaces that call and the
state by what the call's resumption gives. -/
theorem step_resume (m : Page) (k : Nat) (r : Resume) (call : Call)
    (hk : m.calls[k]? = some call) :
    (m.step (Action.resume k r)).calls[k]? = some (call.resume r m.dash).1 ∧
    (m.step (Action.resume k r)).dash = (call.resume r m.dash).2 := by
  have hlt : k < m.calls.length := (List.getElem?_eq_some.mp hk).1
  simp [Page.step, hk, hlt]

/-- Every step other than a resumption of the call at position `k` leaves
that call as it is. -/
theorem step_other (m : Page) (a : Action) (k : Nat) (call : Call)
    (hk : m.calls[k]? = some call) (ha : ∀ r, a ≠ Action.resume k r) :
    (m.step a).calls[k]? = some call := by
  have hlt : k < m.calls.length := (List.getElem?_eq_some.mp hk).1
  cases a with
  | installationsArrive o =>
    simp only [Page.step]
    split
    · exact hk
    · unfold fetchInstallationsDone
      split
      · exact hk
      · split
        · split <;> exact hk
        · exact hk
  | select id =>
    simp only [Page.step]
    split
    · exact hk
    · split
      · split
        · exact hk
        · simp only [Page.runEffect]
          rw [List.getElem?_append_left hlt]
          exact hk
      · exact hk
  | tick =>
    simp only [Page.step]
    rw [List.getElem?_append_left hlt]
    exact hk
  | clickReport =>
    simp only [Page.step]
    split
    · exact hk
    · simp only
      rw [List.getElem?_append_left hlt]
      exact hk
  | resume k2 r =>
    have hne : k2 ≠ k := by
      intro h
      exact ha r (by rw [h])
    simp only [Page.step]
    split
    · exact hk
    · simp only
      rw [List.getElem?_set_ne hne]
      exact hk

/-- While only the call at position `k` is resumed, the flag is up as long
as that call has not returned and down once it has. -/
theorem isolated_run (k : Nat) (rs : List Resume) (m : Page)
    (h : ∃ c, m.calls[k]? = some (Call.cycle c) ∧
      (c.phase ≠ CyclePhase.done → m.dash.loading = true) ∧
      (c.phase = CyclePhase.done → m.dash.loading = false)) :
    ∃ c2, (m.run (rs.map (Action.resume k))).calls[k]? = some (Call.cycle c2) ∧
      (c2.phase ≠ CyclePhase.done → (m.run (rs.map (Action.resume k))).dash.loading = true) ∧
      (c2.phase = CyclePhase.done →
        (m.run (rs.map (Action.resume k))).dash.loading = false) := by
  induction rs generalizing m with
  | nil => exact h
  | cons r rs ih =>
    obtain ⟨c, hk, hup, hdown⟩ := h
    obtain ⟨hcall, hdash⟩ := step_resume m k r (Call.cycle c) hk
    obtain ⟨c2, hc2, hwas, hends, hgoes⟩ := resume_cycle c r m.dash
    have hstep : ∃ c3, (m.step (Action.resume k r)).calls[k]? = some (Call.cycle c3) ∧
        (c3.phase ≠ CyclePhase.done → (m.step (Action.resume k r)).dash.loading = true) ∧
        (c3.phase = CyclePhase.done → (m.step (Action.resume k r)).dash.loading = false) := by
      refine ⟨c2, by rw [hcall, hc2], ?_, ?_⟩
      · intro hnd
        rw [hdash, hgoes hnd]
        by_cases hc : c.phase = CyclePhase.done
        · exact absurd (hwas hc).1 hnd
        · exact hup hc
      · intro hd
        rw [hdash]
        by_cases hc : c.phase = CyclePhase.done
        · rw [(hwas hc).2]
          exact hdown hc
        · exact hends hc hd
    exact ih (m.step (Action.resume k r)) hstep

/-- C18 as stated fails.  First, when the telemetry request of the first
cycle is rejected while its predictions and alerts requests are still pending,
the flag is already lowered.  Second, the flag is shared: when a cycle completes
while a later cycle is still waiting for all three of its requests, the flag is
lowered for both. -/
theorem C18_counterexample :
    (Page.mount.step
      (Action.resume 0 (Resume.telemetry FetchOutcome.rejected))).dash.loading = false ∧
    (Page.mount.step (Action.resume 0 (Resume.telemetry FetchOutcome.rejected))).calls[0]? =
      some (Call.cycle
        { id := "INST_001", telemetry := some FetchOutcome.rejected, predictions := none,
          alerts := none, phase := CyclePhase.done }) ∧
    (Page.mount.run overlapRun).dash.loading = false ∧
    (Page.mount.run overlapRun).calls[2]? = some (Call.cycle (Cycle.start "INST_001")) := by
  refine ⟨?_, ?_, ?_, ?_⟩
  · simp [Page.step, Page.mount, Page.runEffect, Call.resume, Cycle.start, Cycle.afterSettle,
      isRejected, cycleThrows, Dashboard.afterTry]
  · simp [Page.step, Page.mount, Page.runEffect, Call.resume, Cycle.start, Cycle.afterSettle,
      isRejected, cycleThrows, Dashboard.initial]
  · simp [Page.run, overlapRun, Page.step, Page.mount, Page.runEffect, Dashboard.initial,
      Dashboard.beginFetch, errorResponse, Call.resume, Cycle.start, Cycle.afterSettle,
      isRejected, response?, proceedTelemetry, proceedPredictions, proceedAlerts,
      Dashboard.afterTry]
  · simp [Page.run, overlapRun, Page.step, Page.mount, Page.runEffect, Dashboard.initial,
      Dashboard.beginFetch, errorResponse, Call.resume, Cycle.start, Cycle.afterSettle,
      isRejected, response?, proceedTelemetry, proceedPredictions, proceedAlerts,
      Dashboard.afterTry]

/-- C18, amended: for a call of `fetchDashboardData` that has not returned,
whatever its three requests do: (1) every start of a cycle raises the loading
flag; (2) the step in which the call returns lowers it, so no cycle ends with
the flag raised; (3) as long as nothing but this call is resumed, the flag stays
up until the call returns; (4) the call returns as soon as one of its requests
is rejected, others may still be pending; (5) when its three responses have
arrived and one is 2xx, the call does not return yet: it waits for the body,
with the state untouched.  The flag is one state shared by all calls: nothing is
claimed for it while another call returns. -/
theorem C18_loading_flag_shared (m : Page) (k : Nat) (c : Cycle)
    (hk : m.calls[k]? = some (Call.cycle c)) (hrun : c.phase ≠ CyclePhase.done) :
    ((Page.runEffect m).dash.loading = true ∧ (m.step Action.tick).dash.loading = true) ∧
    (∀ a c2, (m.step a).calls[k]? = some (Call.cycle c2) → c2.phase = CyclePhase.done →
      (m.step a).dash.loading = false) ∧
    (m.dash.loading = true → ∀ rs : List Resume,
      ∃ c2, (m.run (rs.map (Action.resume k))).calls[k]? = some (Call.cycle c2) ∧
        (c2.phase ≠ CyclePhase.done →
          (m.run (rs.map (Action.resume k))).dash.loading = true) ∧
        (c2.phase = CyclePhase.done →
          (m.run (rs.map (Action.resume k))).dash.loading = false)) ∧
    (c.phase = CyclePhase.awaitingAll →
      (c.telemetry = none →
        (m.step (Action.resume k (Resume.telemetry FetchOutcome.rejected))).calls[k]? =
          some (Call.cycle
            { c with telemetry := some FetchOutcome.rejected, phase := CyclePhase.done }) ∧
        (m.step (Action.resume k (Resume.telemetry FetchOutcome.rejected))).dash.loading =
          false) ∧
      (c.predictions = none →
        (m.step (Action.resume k (Resume.predictions FetchOutcome.rejected))).calls[k]? =
          some (Call.cycle
            { c with predictions := some FetchOutcome.rejected, phase := CyclePhase.done }) ∧
        (m.step (Action.resume k (Resume.predictions FetchOutcome.rejected))).dash.loading =
          false) ∧
      (c.alerts = none →
        (m.step (Action.resume k (Resume.alerts FetchOutcome.rejected))).calls[k]? =
          some (Call.cycle
            { c with alerts := some FetchOutcome.rejected, phase := CyclePhase.done }) ∧
        (m.step (Action.resume k (Resume.alerts FetchOutcome.rejected))).dash.loading =
          false)) ∧
    (∀ t p a, c.phase = CyclePhase.awaitingAll → c.telemetry = none →
      c.predictions = some (FetchOutcome.resolved p) →
      c.alerts = some (FetchOutcome.resolved a) → t.ok = true →
      (m.step (Action.resume k (Resume.telemetry (FetchOutcome.resolved t)))).calls[k]? =
        some (Call.cycle
          { c with
            telemetry := some (FetchOutcome.resolved t)
            phase := CyclePhase.readingTelemetry t p a }) ∧
      (m.step (Action.resume k (Resume.telemetry (FetchOutcome.resolved t)))).dash =
        m.dash) := by
  refine ⟨⟨rfl, rfl⟩, ?_, ?_, ?_, ?_⟩
  · intro a c2 hc2 hdone
    by_cases ha : ∃ r, a = Action.resume k r
    · obtain ⟨r, rfl⟩ := ha
      obtain ⟨hcall, hdash⟩ := step_resume m k r (Call.cycle c) hk
      obtain ⟨c3, hc3, -, hends, -⟩ := resume_cycle c r m.dash
      rw [hcall, hc3] at hc2
      have hc : c3 = c2 := by
        simpa using hc2
      rw [hdash]
      exact hends hrun (hc ▸ hdone)
    · have hsame := step_other m a k (Call.cycle c) hk
        (fun r h => ha ⟨r, h⟩)
      rw [hsame] at hc2
      have hc : c = c2 := by
        simpa using hc2
      exact absurd (hc ▸ hdone) hrun
  · intro hload rs
    exact isolated_run k rs m ⟨c, hk, fun _ => hload, fun h => absurd h hrun⟩
  · intro hph
    have hlt : k < m.calls.length := (List.getElem?_eq_some.mp hk).1
    refine ⟨?_, ?_, ?_⟩
    · intro hn
      simp [Page.step, hk, hlt, Call.resume, hn, Cycle.afterSettle, hph, isRejected,
        cycleThrows, Dashboard.afterTry]
    · intro hn
      simp [Page.step, hk, hlt, Call.resume, hn, Cycle.afterSettle, hph, isRejected,
        cycleThrows, Dashboard.afterTry]
    · intro hn
      simp [Page.step, hk, hlt, Call.resume, hn, Cycle.afterSettle, hph, isRejected,
        cycleThrows, Dashboard.afterTry]
  · intro t p a hph hn hp ha hok
    have hlt : k < m.calls.length := (List.getElem?_eq_some.mp hk).1
    simp [Page.step, hk, hlt, Call.resume, hn, Cycle.afterSettle, hph, isRejected, hp, ha,
      response?, proceedTelemetry, hok]

/-- C18, worked example: on the first cycle after mounting, a tick raises
the flag, a rejected telemetry request lowers it at once, and with three
responses in (telemetry 2xx) the flag stays up until the telemetry body has
been read. -/
theorem C18_loading_flag_shared_witness :
    Page.mount.calls[0]? = some (Call.cycle (Cycle.start "INST_001")) ∧
    (Page.mount.step Action.tick).dash.loading = true ∧
    (Page.mount.step
      (Action.resume 0 (Resume.telemetry FetchOutcome.rejected))).dash.loading = false ∧
    (Page.mount.run
      ([Resume.telemetry (FetchOutcome.resolved (okResponse [sampleReading 1 5])),
        Resume.predictions (FetchOutcome.resolved (errorResponse [])),
        Resume.alerts (FetchOutcome.resolved (errorResponse []))].map
        (Action.resume 0))).dash.loading = true ∧
    (Page.mount.run
      ([Resume.telemetry (FetchOutcome.resolved (okResponse [sampleReading 1 5])),
        Resume.predictions (FetchOutcome.resolved (errorResponse [])),
        Resume.alerts (FetchOutcome.resolved (errorResponse [])),
        Resume.body].map (Action.resume 0))).dash.loading = false := by
  have hk : Page.mount.calls[0]? = some (Call.cycle (Cycle.start "INST_001")) := by
    simp [Page.mount, Page.runEffect, Dashboard.initial]
  have hrun : (Cycle.start "INST_001").phase ≠ CyclePhase.done := by
    simp [Cycle.start]
  have hload : Page.mount.dash.loading = true := rfl
  have h := C18_loading_flag_shared Page.mount 0 (Cycle.start "INST_001") hk hrun
  refine ⟨hk, h.1.2, ((h.2.2.2.1 rfl).1 rfl).2, ?_, ?_⟩
  · obtain ⟨c2, hc2, hup, -⟩ := h.2.2.1 hload
      [Resume.telemetry (FetchOutcome.resolved (okResponse [sampleReading 1 5])),
       Resume.predictions (FetchOutcome.resolved (errorResponse [])),
       Resume.alerts (FetchOutcome.resolved (errorResponse []))]
    apply hup
    intro hd
    have hc : (Page.mount.run
        ([Resume.telemetry (FetchOutcome.resolved (okResponse [sampleReading 1 5])),
          Resume.predictions (FetchOutcome.resolved (errorResponse [])),
          Resume.alerts (FetchOutcome.resolved (errorResponse []))].map
          (Action.resume 0))).calls[0]? =
        some (Call.cycle
          { id := "INST_001"
            telemetry := some (FetchOutcome.resolved (okResponse [sampleReading 1 5]))
            predictions := some (FetchOutcome.resolved (errorResponse []))
            alerts := some (FetchOutcome.resolved (errorResponse []))
            phase := CyclePhase.readingTelemetry (okResponse [sampleReading 1 5])
              (errorResponse []) (errorResponse []) }) := by
      simp [Page.run, Page.step, Page.mount, Page.runEffect, Dashboard.initial, okResponse,
        errorResponse, Call.resume, Cycle.start, Cycle.afterSettle, isRejected, response?,
        proceedTelemetry]
    rw [hc] at hc2
    have heq := Call.cycle.inj (Option.some.inj hc2)
    rw [← heq] at hd
    simp at hd
  · obtain ⟨c2, hc2, -, hdown⟩ := h.2.2.1 hload
      [Resume.telemetry (FetchOutcome.resolved (okResponse [sampleReading 1 5])),
       Resume.predictions (FetchOutcome.resolved (errorResponse [])),
       Resume.alerts (FetchOutcome.resolved (errorResponse [])),
       Resume.body]
    apply hdown
    have hc : (Page.mount.run
        ([Resume.telemetry (FetchOutcome.resolved (okResponse [sampleReading 1 5])),
          Resume.predictions (FetchOutcome.resolved (errorResponse [])),
          Resume.alerts (FetchOutcome.resolved (errorResponse [])),
          Resume.body].map (Action.resume 0))).calls[0]? =
        some (Call.cycle
          { id := "INST_001"
            telemetry := some (FetchOutcome.resolved (okResponse [sampleReading 1 5]))
            predictions := some (FetchOutcome.resolved (errorResponse []))
            alerts := some (FetchOutcome.resolved (errorResponse []))
            phase := CyclePhase.done }) := by
      simp [Page.run, Page.step, Page.mount, Page.runEffect, Dashboard.initial, okResponse,
        errorResponse, Call.resume, Cycle.start, Cycle.afterSettle, Cycle.afterBody,
        isRejected, response?, proceedTelemetry, proceedPredictions, proceedAlerts]
    rw [hc] at hc2
    have heq := Call.cycle.inj (Option.some.inj hc2)
    rw [← heq]

/-! ## One cycle alone: the steps against the whole call -/

theorem response?_eq_some {β : Type} (o : Option (FetchOutcome β)) (x : Response β)
    (h : response? o = some x) : o = some (FetchOutcome.resolved x) := by
  rcases o with _ | _ | y
  · simp [response?] at h
  · simp [response?] at h
  · simp only [response?, Option.some.injEq] at h
    rw [h]

/-- Reading the bodies that remain after `Promise.all` has returned ends in
the state the three `if` blocks give when run in one go. -/
theorem readAll_proceedTelemetry (c : Cycle) (t : Response (List TelemetryReading))
    (p : Response (List Prediction)) (a : Response (List Alert)) (s : Dashboard) :
    (Cycle.readAll { c with phase := (proceedTelemetry t p a s).1 }
      (proceedTelemetry t p a s).2).2 = Dashboard.afterTry (applyResponses t p a s) := by
  obtain ⟨tok, tb⟩ := t
  obtain ⟨pok, pb⟩ := p
  obtain ⟨aok, ab⟩ := a
  cases tok <;> cases pok <;> cases aok <;> cases tb <;> cases pb <;> cases ab <;>
    simp [Cycle.readAll, Cycle.afterBody, proceedTelemetry, proceedPredictions, proceedAlerts,
      cycleThrows, applyResponses, whenOk]

/-- A call suspended at a body read, or returned, has returned after three
body reads. -/
theorem readAll_done (c : Cycle) (s : Dashboard) (h : c.phase ≠ CyclePhase.awaitingAll) :
    (Cycle.readAll c s).1.phase = CyclePhase.done := by
  obtain ⟨id, ct, cp, ca, phase⟩ := c
  cases phase with
  | awaitingAll => exact absurd rfl h
  | done => simp [Cycle.readAll, Cycle.afterBody]
  | readingAlerts a =>
    obtain ⟨aok, ab⟩ := a
    cases ab <;> simp [Cycle.readAll, Cycle.afterBody, cycleThrows]
  | readingPredictions p a =>
    obtain ⟨pok, pb⟩ := p
    obtain ⟨aok, ab⟩ := a
    cases aok <;> cases pb <;> cases ab <;>
      simp [Cycle.readAll, Cycle.afterBody, cycleThrows, proceedAlerts]
  | readingTelemetry t p a =>
    obtain ⟨tok, tb⟩ := t
    obtain ⟨pok, pb⟩ := p
    obtain ⟨aok, ab⟩ := a
    cases pok <;> cases aok <;> cases tb <;> cases pb <;> cases ab <;>
      simp [Cycle.readAll, Cycle.afterBody, cycleThrows, proceedPredictions, proceedAlerts]

theorem proceedAlerts_phase (a : Response (List Alert)) (s : Dashboard) :
    (proceedAlerts a s).1 ≠ CyclePhase.awaitingAll := by
  cases h : a.ok <;> simp [proceedAlerts, h]

theorem proceedPredictions_phase (p : Response (List Prediction)) (a : Response (List Alert))
    (s : Dashboard) : (proceedPredictions p a s).1 ≠ CyclePhase.awaitingAll := by
  cases h : p.ok
  · simpa [proceedPredictions, h] using proceedAlerts_phase a s
  · simp [proceedPredictions, h]

theorem proceedTelemetry_phase (t : Response (List TelemetryReading))
    (p : Response (List Prediction)) (a : Response (List Alert)) (s : Dashboard) :
    (proceedTelemetry t p a s).1 ≠ CyclePhase.awaitingAll := by
  cases h : t.ok
  · simpa [proceedTelemetry, h] using proceedPredictions_phase p a s
  · simp [proceedTelemetry, h]

/-- A body read changes neither the id of the call nor what is recorded of
its requests, and does not take it back to the `await` on `Promise.all`. -/
theorem afterBody_slots (c : Cycle) (s : Dashboard) :
    (Cycle.afterBody c s).1.telemetry = c.telemetry ∧
    (Cycle.afterBody c s).1.predictions = c.predictions ∧
    (Cycle.afterBody c s).1.alerts = c.alerts ∧
    (c.phase ≠ CyclePhase.awaitingAll →
      (Cycle.afterBody c s).1.phase ≠ CyclePhase.awaitingAll) := by
  unfold Cycle.afterBody
  cases hph : c.phase with
  | awaitingAll => simp [hph]
  | done => simp [hph]
  | readingTelemetry t p a =>
    cases hb : t.body with
    | unreadable => simp [hb, cycleThrows]
    | readable d =>
      simp only [hb]
      exact ⟨trivial, trivial, trivial, fun _ => proceedPredictions_phase p a _⟩
  | readingPredictions p a =>
    cases hb : p.body with
    | unreadable => simp [hb, cycleThrows]
    | readable d =>
      simp only [hb]
      exact ⟨trivial, trivial, trivial, fun _ => proceedAlerts_phase a _⟩
  | readingAlerts a =>
    cases hb : a.body with
    | unreadable => simp [hb, cycleThrows]
    | readable d => simp [hb]

/-- The state of a call run alone from the state `d0` it started in: while
it waits for `Promise.all` nothing has been written; afterwards either a request
was rejected and the `catch` and `finally` blocks have run on `d0`, or the three
responses are in and reading the remaining bodies ends in the state the three
`if` blocks give on `d0`.  A settling request keeps this. -/
theorem afterSettle_agrees (d0 : Dashboard) (c : Cycle) (d : Dashboard)
    (h1 : c.phase = CyclePhase.awaitingAll → d = d0)
    (h2 : c.phase ≠ CyclePhase.awaitingAll →
      (c.anyRejected = true ∧ c.phase = CyclePhase.done ∧
        d = Dashboard.afterTry { state := d0, threw := true }) ∨
      ∃ t p a, c.telemetry = some (FetchOutcome.resolved t) ∧
        c.predictions = some (FetchOutcome.resolved p) ∧
        c.alerts = some (FetchOutcome.resolved a) ∧
        (Cycle.readAll c d).2 = Dashboard.afterTry (applyResponses t p a d0)) :
    ((Cycle.afterSettle c d).1.phase = CyclePhase.awaitingAll →
      (Cycle.afterSettle c d).2 = d0) ∧
    ((Cycle.afterSettle c d).1.phase ≠ CyclePhase.awaitingAll →
      ((Cycle.afterSettle c d).1.anyRejected = true ∧
        (Cycle.afterSettle c d).1.phase = CyclePhase.done ∧
        (Cycle.afterSettle c d).2 = Dashboard.afterTry { state := d0, threw := true }) ∨
      ∃ t p a, (Cycle.afterSettle c d).1.telemetry = some (FetchOutcome.resolved t) ∧
        (Cycle.afterSettle c d).1.predictions = some (FetchOutcome.resolved p) ∧
        (Cycle.afterSettle c d).1.alerts = some (FetchOutcome.resolved a) ∧
        (Cycle.readAll (Cycle.afterSettle c d).1 (Cycle.afterSettle c d).2).2 =
          Dashboard.afterTry (applyResponses t p a d0)) := by
  by_cases hph : c.phase = CyclePhase.awaitingAll
  · have hd := h1 hph
    subst hd
    by_cases hrej : c.anyRejected = true
    · have hr : Cycle.afterSettle c d =
          ({ c with phase := CyclePhase.done },
            Dashboard.afterTry { state := d, threw := true }) := by
        simp only [Cycle.anyRejected] at hrej
        simp [Cycle.afterSettle, hph, hrej, cycleThrows]
      rw [hr]
      refine ⟨by simp, fun _ => Or.inl ⟨?_, rfl, rfl⟩⟩
      simpa [Cycle.anyRejected] using hrej
    · have hrej2 : (isRejected c.telemetry || isRejected c.predictions ||
          isRejected c.alerts) = false := by
        simpa [Cycle.anyRejected] using hrej
      cases ht : response? c.telemetry with
      | none =>
        have hr : Cycle.afterSettle c d = (c, d) := by
          simp [Cycle.afterSettle, hph, hrej2, ht]
        rw [hr]
        exact ⟨fun _ => rfl, fun h => absurd hph h⟩
      | some t =>
        cases hp : response? c.predictions with
        | none =>
          have hr : Cycle.afterSettle c d = (c, d) := by
            simp [Cycle.afterSettle, hph, hrej2, ht, hp]
          rw [hr]
          exact ⟨fun _ => rfl, fun h => absurd hph h⟩
        | some p =>
          cases ha : response? c.alerts with
          | none =>
            have hr : Cycle.afterSettle c d = (c, d) := by
              simp [Cycle.afterSettle, hph, hrej2, ht, hp, ha]
            rw [hr]
            exact ⟨fun _ => rfl, fun h => absurd hph h⟩
          | some a =>
            have hr : Cycle.afterSettle c d =
                ({ c with phase := (proceedTelemetry t p a d).1 },
                  (proceedTelemetry t p a d).2) := by
              simp [Cycle.afterSettle, hph, hrej2, ht, hp, ha]
            rw [hr]
            refine ⟨fun h => absurd h (proceedTelemetry_phase t p a d), fun _ => Or.inr
              ⟨t, p, a, response?_eq_some _ _ ht, response?_eq_some _ _ hp,
                response?_eq_some _ _ ha, readAll_proceedTelemetry c t p a d⟩⟩
  · have hr : Cycle.afterSettle c d = (c, d) := by
      unfold Cycle.afterSettle
      cases hc : c.phase <;> simp_all
    rw [hr]
    exact ⟨fun h => absurd h hph, h2⟩

/-- One resumption of a call of `fetchDashboardData` run alone keeps the
relation of `afterSettle_agrees` between the call and the state. -/
theorem resume_agrees (d0 : Dashboard) (c : Cycle) (r : Resume) (d : Dashboard)
    (h1 : c.phase = CyclePhase.awaitingAll → d = d0)
    (h2 : c.phase ≠ CyclePhase.awaitingAll →
      (c.anyRejected = true ∧ c.phase = CyclePhase.done ∧
        d = Dashboard.afterTry { state := d0, threw := true }) ∨
      ∃ t p a, c.telemetry = some (FetchOutcome.resolved t) ∧
        c.predictions = some (FetchOutcome.resolved p) ∧
        c.alerts = some (FetchOutcome.resolved a) ∧
        (Cycle.readAll c d).2 = Dashboard.afterTry (applyResponses t p a d0)) :
    ∃ c2, (Call.resume (Call.cycle c) r d).1 = Call.cycle c2 ∧
      (c2.phase = CyclePhase.awaitingAll → (Call.resume (Call.cycle c) r d).2 = d0) ∧
      (c2.phase ≠ CyclePhase.awaitingAll →
        (c2.anyRejected = true ∧ c2.phase = CyclePhase.done ∧
          (Call.resume (Call.cycle c) r d).2 =
            Dashboard.afterTry { state := d0, threw := true }) ∨
        ∃ t p a, c2.telemetry = some (FetchOutcome.resolved t) ∧
          c2.predictions = some (FetchOutcome.resolved p) ∧
          c2.alerts = some (FetchOutcome.resolved a) ∧
          (Cycle.readAll c2 (Call.resume (Call.cycle c) r d).2).2 =
            Dashboard.afterTry (applyResponses t p a d0)) := by
  cases r with
  | telemetry o =>
    cases ht : c.telemetry with
    | some x =>
      refine ⟨c, by simp [Call.resume, ht], ?_, ?_⟩
      · simpa [Call.resume, ht] using h1
      · simpa [Call.resume, ht] using h2
    | none =>
      have h := afterSettle_agrees d0 { c with telemetry := some o } d h1
        (by
          intro hne
          rcases h2 hne with ⟨hrej, hdone, hd⟩ | ⟨t, p, a, htt, -⟩
          · refine Or.inl ⟨?_, hdone, hd⟩
            simp only [Cycle.anyRejected, ht, Bool.or_eq_true] at hrej ⊢
            rcases hrej with (hrej | hrej) | hrej
            · simp [isRejected] at hrej
            · exact Or.inl (Or.inr hrej)
            · exact Or.inr hrej
          · rw [ht] at htt
            exact absurd htt (by simp))
      refine ⟨(Cycle.afterSettle { c with telemetry := some o } d).1,
        by simp [Call.resume, ht], ?_, ?_⟩
      · simpa [Call.resume, ht] using h.1
      · simpa [Call.resume, ht] using h.2
  | predictions o =>
    cases ht : c.predictions with
    | some x =>
      refine ⟨c, by simp [Call.resume, ht], ?_, ?_⟩
      · simpa [Call.resume, ht] using h1
      · simpa [Call.resume, ht] using h2
    | none =>
      have h := afterSettle_agrees d0 { c with predictions := some o } d h1
        (by
          intro hne
          rcases h2 hne with ⟨hrej, hdone, hd⟩ | ⟨t, p, a, -, htt, -⟩
          · refine Or.inl ⟨?_, hdone, hd⟩
            simp only [Cycle.anyRejected, ht, Bool.or_eq_true] at hrej ⊢
            rcases hrej with (hrej | hrej) | hrej
            · exact Or.inl (Or.inl hrej)
            · simp [isRejected] at hrej
            · exact Or.inr hrej
          · rw [ht] at htt
            exact absurd htt (by simp))
      refine ⟨(Cycle.afterSettle { c with predictions := some o } d).1,
        by simp [Call.resume, ht], ?_, ?_⟩
      · simpa [Call.resume, ht] using h.1
      · simpa [Call.resume, ht] using h.2
  | alerts o =>
    cases ht : c.alerts with
    | some x =>
      refine ⟨c, by simp [Call.resume, ht], ?_, ?_⟩
      · simpa [Call.resume, ht] using h1
      · simpa [Call.resume, ht] using h2
    | none =>
      have h := afterSettle_agrees d0 { c with alerts := some o } d h1
        (by
          intro hne
          rcases h2 hne with ⟨hrej, hdone, hd⟩ | ⟨t, p, a, -, -, htt, -⟩
          · refine Or.inl ⟨?_, hdone, hd⟩
            simp only [Cycle.anyRejected, ht, Bool.or_eq_true] at hrej ⊢
            rcases hrej with (hrej | hrej) | hrej
            · exact Or.inl (Or.inl hrej)
            · exact Or.inl (Or.inr hrej)
            · simp [isRejected] at hrej
          · rw [ht] at htt
            exact absurd htt (by simp))
      refine ⟨(Cycle.afterSettle { c with alerts := some o } d).1,
        by simp [Call.resume, ht], ?_, ?_⟩
      · simpa [Call.resume, ht] using h.1
      · simpa [Call.resume, ht] using h.2
  | body =>
    refine ⟨(Cycle.afterBody c d).1, by simp [Call.resume], ?_, ?_⟩
    · intro hph2
      have hph : c.phase = CyclePhase.awaitingAll := by
        by_contra hne
        exact (afterBody_slots c d).2.2.2 hne hph2
      have hr : Cycle.afterBody c d = (c, d) := by
        simp [Cycle.afterBody, hph]
      simp only [Call.resume, hr]
      exact h1 hph
    · intro hph2
      by_cases hph : c.phase = CyclePhase.awaitingAll
      · have hr : Cycle.afterBody c d = (c, d) := by
          simp [Cycle.afterBody, hph]
        rw [hr] at hph2
        exact absurd hph hph2
      · rcases h2 hph with ⟨hrej, hdone, hd⟩ | ⟨t, p, a, h3, h4, h5, h6⟩
        · have hr := afterBody_done c d hdone
          simp only [Call.resume, hr]
          exact Or.inl ⟨hrej, hdone, hd⟩
        · refine Or.inr ⟨t, p, a, ?_, ?_, ?_, ?_⟩
          · rw [(afterBody_slots c d).1, h3]
          · rw [(afterBody_slots c d).2.1, h4]
          · rw [(afterBody_slots c d).2.2.1, h5]
          · have hshift : Cycle.readAll (Cycle.afterBody c d).1 (Cycle.afterBody c d).2 =
                Cycle.afterBody (Cycle.readAll c d).1 (Cycle.readAll c d).2 := rfl
            have hfix := afterBody_done (Cycle.readAll c d).1 (Cycle.readAll c d).2
              (readAll_done c d hph)
            simp only [Call.resume]
            rw [hshift, hfix]
            exact h6
  | report o =>
    refine ⟨c, by simp [Call.resume], ?_, ?_⟩
    · simpa [Call.resume] using h1
    · simpa [Call.resume] using h2
  | reportBody w =>
    refine ⟨c, by simp [Call.resume], ?_, ?_⟩
    · simpa [Call.resume] using h1
    · simpa [Call.resume] using h2

/-- While only the call at position `k` is resumed, the relation of
`afterSettle_agrees` between that call and the state is kept. -/
theorem isolated_run_agrees (d0 : Dashboard) (k : Nat) (rs : List Resume) (m : Page)
    (h : ∃ c, m.calls[k]? = some (Call.cycle c) ∧
      (c.phase = CyclePhase.awaitingAll → m.dash = d0) ∧
      (c.phase ≠ CyclePhase.awaitingAll →
        (c.anyRejected = true ∧ c.phase = CyclePhase.done ∧
          m.dash = Dashboard.afterTry { state := d0, threw := true }) ∨
        ∃ t p a, c.telemetry = some (FetchOutcome.resolved t) ∧
          c.predictions = some (FetchOutcome.resolved p) ∧
          c.alerts = some (FetchOutcome.resolved a) ∧
          (Cycle.readAll c m.dash).2 = Dashboard.afterTry (applyResponses t p a d0))) :
    ∃ c2, (m.run (rs.map (Action.resume k))).calls[k]? = some (Call.cycle c2) ∧
      (c2.phase = CyclePhase.awaitingAll → (m.run (rs.map (Action.resume k))).dash = d0) ∧
      (c2.phase ≠ CyclePhase.awaitingAll →
        (c2.anyRejected = true ∧ c2.phase = CyclePhase.done ∧
          (m.run (rs.map (Action.resume k))).dash =
            Dashboard.afterTry { state := d0, threw := true }) ∨
        ∃ t p a, c2.telemetry = some (FetchOutcome.resolved t) ∧
          c2.predictions = some (FetchOutcome.resolved p) ∧
          c2.alerts = some (FetchOutcome.resolved a) ∧
          (Cycle.readAll c2 (m.run (rs.map (Action.resume k))).dash).2 =
            Dashboard.afterTry (applyResponses t p a d0)) := by
  induction rs generalizing m with
  | nil => exact h
  | cons r rs ih =>
    obtain ⟨c, hk, h1, h2⟩ := h
    obtain ⟨hcall, hdash⟩ := step_resume m k r (Call.cycle c) hk
    obtain ⟨c2, hc2, h3, h4⟩ := resume_agrees d0 c r m.dash h1 h2
    apply ih (m.step (Action.resume k r))
    refine ⟨c2, by rw [hcall, hc2], ?_, ?_⟩
    · rw [hdash]
      exact h3
    · rw [hdash]
      exact h4

/-- A cycle started by the interval and run alone, its requests settling in
any order and its bodies read one by one: once the call has returned, the state
is the one `fetchDashboardData` gives in one go on outcomes that agree with
every request that has settled. -/
theorem isolated_cycle_agrees (m : Page) (rs : List Resume) (c2 : Cycle)
    (hk : ((m.step Action.tick).run (rs.map (Action.resume m.calls.length))).calls[
      m.calls.length]? = some (Call.cycle c2))
    (hdone : c2.phase = CyclePhase.done) :
    ∃ o : CycleOutcome,
      (∀ x, c2.telemetry = some x → x = o.telemetry) ∧
      (∀ x, c2.predictions = some x → x = o.predictions) ∧
      (∀ x, c2.alerts = some x → x = o.alerts) ∧
      ((m.step Action.tick).run (rs.map (Action.resume m.calls.length))).dash =
        fetchDashboardData o m.dash := by
  have hstart : (m.step Action.tick).calls[m.calls.length]? =
      some (Call.cycle (Cycle.start m.dash.selectedInstallation)) := by
    simp [Page.step]
  obtain ⟨c3, hc3, -, h4⟩ := isolated_run_agrees m.dash.beginFetch m.calls.length rs
    (m.step Action.tick)
    ⟨Cycle.start m.dash.selectedInstallation, hstart, fun _ => rfl,
      fun h => absurd rfl h⟩
  rw [hk] at hc3
  have hc : c2 = c3 := Call.cycle.inj (Option.some.inj hc3)
  subst hc
  have hne : c2.phase ≠ CyclePhase.awaitingAll := by
    rw [hdone]
    simp
  rcases h4 hne with ⟨hrej, -, hd⟩ | ⟨t, p, a, h5, h6, h7, h8⟩
  · refine ⟨⟨c2.telemetry.getD FetchOutcome.rejected, c2.predictions.getD FetchOutcome.rejected,
      c2.alerts.getD FetchOutcome.rejected⟩, ?_, ?_, ?_, ?_⟩
    · intro x hx
      simp [hx]
    · intro x hx
      simp [hx]
    · intro x hx
      simp [hx]
    · rw [hd, fetchDashboardData, settleCycle_rejected]
      obtain ⟨id, ct, cp, ca, phase⟩ := c2
      simp only [Cycle.anyRejected] at hrej
      rcases ct with _ | _ | _ <;> rcases cp with _ | _ | _ <;> rcases ca with _ | _ | _ <;>
        simp_all [isRejected]
  · refine ⟨⟨FetchOutcome.resolved t, FetchOutcome.resolved p, FetchOutcome.resolved a⟩,
      ?_, ?_, ?_, ?_⟩
    · intro x hx
      rw [h5] at hx
      exact (Option.some.inj hx).symm
    · intro x hx
      rw [h6] at hx
      exact (Option.some.inj hx).symm
    · intro x hx
      rw [h7] at hx
      exact (Option.some.inj hx).symm
    · have hfix : Cycle.readAll c2
          ((m.step Action.tick).run (rs.map (Action.resume m.calls.length))).dash =
          (c2, ((m.step Action.tick).run (rs.map (Action.resume m.calls.length))).dash) := by
        simp [Cycle.readAll, afterBody_done _ _ hdone]
      rw [hfix] at h8
      rw [fetchDashboardData, settleCycle_resolved]
      exact h8

end EcoPower
